import Mathlib

/-!
Verification development for the H.265/HEVC SPS/PPS parameter-set parser
(`src/nal/sps.rs`, `src/nal/pps.rs`).

The parser is embedded shallowly: the bitstream is a `List Bool` (most
significant bit of each byte first), every fallible parsing function maps the
remaining bit list to `Except PError (result × remaining bits)`, and Rust
panics (unchecked indexing, `expect`, debug-mode integer overflow) are
modelled as the distinguished outcome `PError.fatal`.

The bit-reader (`rbsp` module) is not part of the two source files; its
operations are modelled from the specification's contract for it (section
4.1 of the design document): fixed-width big-endian reads, Exp-Golomb
unsigned/signed codes, RBSP trailing-bit validation.
-/

set_option maxHeartbeats 2000000
set_option maxRecDepth 10000

/-- Diagnostic field labels. The Rust code carries `&'static str` labels that
have no effect on parsing; only the labels embedded in error values are kept,
as a finite enumeration. -/
inductive FieldName
  | max_num_sub_layers_minus1
  | chroma_format_idc
  | win_left_offset
  | win_right_offset
  | win_top_offset
  | win_bottom_offset
  | sps_range_extension
  | sps_multilayer_extension
  | sps_3d_extension
  | sps_scc_extension
  deriving DecidableEq, Repr

/-- Errors of the bit reader, from the spec's error taxonomy (section 7). -/
inductive BitReaderError
  | outOfBits
  | expGolombOverflow
  | trailingData
  deriving DecidableEq, Repr

/-- `ParamSetIdError` from `src/nal/pps.rs`. -/
inductive ParamSetIdError
  | idTooLarge (v : Nat)
  deriving DecidableEq, Repr

/-- `SpsError` from `src/nal/sps.rs` (the live variants). -/
inductive SpsError
  | rbspReaderError (e : BitReaderError)
  | badSeqParamSetId (e : ParamSetIdError)
  | badVideoParamSetId (e : ParamSetIdError)
  | fieldValueTooLarge (name : FieldName) (value : Nat)
  | unimplemented (what : FieldName)
  deriving DecidableEq, Repr

/-- Outcome of running a parser: a typed error surfaced to the caller, or a
Rust panic (`fatal`), which the source reaches through unchecked indexing /
`expect` / arithmetic overflow. -/
inductive PError
  | err (e : SpsError)
  | fatal
  deriving DecidableEq, Repr

abbrev BitList := List Bool

/-- Shorthand for the reader-exhausted error wrapped as an `SpsError`. -/
def outOfBits : PError := .err (.rbspReaderError .outOfBits)

/-- Modelled from the spec: `read_bool` consumes one bit; fails with
`OutOfBits` when the buffer is exhausted. -/
def readBit : BitList → Except PError (Bool × BitList)
  | [] => .error outOfBits
  | b :: rest => .ok (b, rest)

/-- Value of a bit string read most-significant-bit first. -/
def bitsToNat (l : BitList) : Nat :=
  l.foldl (fun acc b => 2 * acc + (if b then 1 else 0)) 0

/-- Modelled from the spec: `read_u(n_bits)` consumes `n_bits` bits and
returns the unsigned value, most-significant-bit first; fails with
`OutOfBits` when fewer bits remain. -/
def readU (n : Nat) (bits : BitList) : Except PError (Nat × BitList) :=
  if n ≤ bits.length then .ok (bitsToNat (bits.take n), bits.drop n)
  else .error outOfBits

/-- Leading-zero count of an Exp-Golomb code: number of `0` bits before the
first `1`, which is also consumed. `none` when the buffer holds no `1`. -/
def countLeadingZeros : BitList → Option (Nat × BitList)
  | [] => none
  | true :: rest => some (0, rest)
  | false :: rest =>
    match countLeadingZeros rest with
    | none => none
    | some (k, r) => some (k + 1, r)

/-- Modelled from the spec: `read_ue` consumes an Exp-Golomb unsigned code —
count leading zero bits until a `1`, read that many suffix bits, and return
`2^count - 1 + suffix`. Fails with `OutOfBits` on exhaustion and with
`ExpGolombOverflow` when the code cannot fit the 32-bit target (more than 31
leading zeros). -/
def readUe (bits : BitList) : Except PError (Nat × BitList) :=
  match countLeadingZeros bits with
  | none => .error outOfBits
  | some (k, rest) =>
    if k ≤ 31 then
      match readU k rest with
      | .error e => .error e
      | .ok (suffix, rest2) => .ok (2 ^ k - 1 + suffix, rest2)
    else .error (.err (.rbspReaderError .expGolombOverflow))

/-- Modelled from the spec: `read_se` reads a `ue` code and applies the
zig-zag mapping — even `k` to `k/2`, odd `k` to `-((k+1)/2)`. -/
def readSe (bits : BitList) : Except PError (Int × BitList) :=
  match readUe bits with
  | .error e => .error e
  | .ok (k, rest) =>
    if k % 2 = 0 then .ok ((k / 2 : Nat), rest)
    else .ok (-(((k + 1) / 2 : Nat) : Int), rest)

/-- Modelled from the spec: `has_more_data` is a non-consuming look-ahead
that is true exactly when data bits remain before the RBSP stop bit (the
final `1` in the buffer). -/
def hasMoreRbspData (bits : BitList) : Bool :=
  (bits.drop 1).any (fun b => b)

/-- The RBSP stop pattern: one `1` bit followed by zero-padding to the byte
boundary (fewer than 8 bits of padding). -/
def isStopPattern : BitList → Bool
  | true :: rest => rest.all (fun b => !b) && rest.length < 8
  | _ => false

/-- Modelled from the spec: `finish` validates that only the RBSP stop
pattern remains; fails with `TrailingData` otherwise. -/
def finishRbsp (bits : BitList) : Except PError Unit :=
  if isStopPattern bits then .ok () else .error (.err (.rbspReaderError .trailingData))

/-- Run a sub-parser `n` times in sequence, collecting the results. -/
def readN (p : BitList → Except PError (α × BitList)) :
    Nat → BitList → Except PError (List α × BitList)
  | 0, bits => .ok ([], bits)
  | n + 1, bits =>
    match p bits with
    | .error e => .error e
    | .ok (x, bits2) =>
      match readN p n bits2 with
      | .error e => .error e
      | .ok (xs, bits3) => .ok (x :: xs, bits3)

/-- The `u32 as i32` cast (wrapping at `2^31`). -/
def u32ToI32 (v : Nat) : Int :=
  if v < 2 ^ 31 then (v : Int) else (v : Int) - 2 ^ 32

/-- `ParamSetId<MAX>` from `src/nal/pps.rs`: a bounded identifier storing a
`u8`. -/
structure ParamSetId (MAX : Nat) where
  val : Nat
  deriving DecidableEq, Repr

/-- `ParamSetId::<MAX>::from_u32`: fails with `IdTooLarge` when `id > MAX`,
otherwise stores `id as u8` (reduction modulo `2^8`). -/
def ParamSetId.from_u32 (MAX : Nat) (id : Nat) : Except ParamSetIdError (ParamSetId MAX) :=
  if id > MAX then .error (.idTooLarge id) else .ok ⟨id % 256⟩

/-- `ParamSetId::id`. -/
def ParamSetId.id (p : ParamSetId MAX) : Nat := p.val

instance : Inhabited (ParamSetId MAX) := ⟨⟨0⟩⟩

/-- `Tier` from `src/nal/sps.rs`. -/
inductive Tier
  | Main
  | High
  deriving DecidableEq, Repr

/-- `Tier::from_tier_flag`. -/
def Tier.from_tier_flag : Bool → Tier
  | false => .Main
  | true => .High

/-- `Profile` from `src/nal/sps.rs`. -/
inductive Profile
  | Unknown (idc : Nat)
  | Main
  | Main10
  | Main10StillPicture
  | MainStillPicture
  | Monochrome
  | Monochrome10
  | Monochrome12
  | Monochrome16
  | Main12
  | Main422_10
  | Main422_12
  | Main444
  | Main444_10
  | Main444_12
  | MainIntra
  | Main10Intra
  | Main12Intra
  | Main422_10Intra
  | Main422_12Intra
  | Main444Intra
  | Main444_10Intra
  | Main444_12Intra
  | Main444_16Intra
  | Main444StillPicture
  | Main444_16StillPicture
  | HighThroughput444
  | HighThroughput444_10
  | HighThroughput444_14
  | HighThroughput444_16Intra
  | ScreenExtendedMain
  | ScreenExtendedMain10
  | ScreenExtendedMain444
  | ScreenExtendedMain444_10
  | ScreenExtendedHighThroughput444
  | ScreenExtendedHighThroughput444_10
  | ScreenExtendedHighThroughput444_14
  | ScalableMain
  | ScalableMain10
  | ScalableMonochrome
  | ScalableMonochrome12
  | ScalableMonochrome16
  | ScalableMain444
  | MultiviewMain
  | ThreeDeeMain
  deriving DecidableEq, Repr

/-- `ChromaFormat` from `src/nal/sps.rs`. -/
inductive ChromaFormat
  | Monochrome
  | YUV420
  | YUV422
  | YUV444
  | Invalid (idc : Nat)
  deriving DecidableEq, Repr

instance : Inhabited ChromaFormat := ⟨.YUV420⟩

/-- `ChromaFormat::from_chroma_format_idc`. -/
def ChromaFormat.from_chroma_format_idc (idc : Nat) : ChromaFormat :=
  match idc with
  | 0 => .Monochrome
  | 1 => .YUV420
  | 2 => .YUV422
  | 3 => .YUV444
  | _ => .Invalid idc

/-- `ChromaInfo` from `src/nal/sps.rs`. -/
structure ChromaInfo where
  chroma_format : ChromaFormat
  separate_colour_plane_flag : Bool
  deriving DecidableEq, Repr

instance : Inhabited ChromaInfo := ⟨⟨default, false⟩⟩

/-- `ChromaInfo::read`. -/
def ChromaInfo.read (bits : BitList) : Except PError (ChromaInfo × BitList) := do
  let (chroma_format_idc, bits) ← readUe bits
  let (flag, bits) ←
    if chroma_format_idc = 3 then readBit bits else pure (false, bits)
  pure ({ chroma_format := ChromaFormat.from_chroma_format_idc chroma_format_idc,
          separate_colour_plane_flag := flag }, bits)

/-- `AspectRatioInfo` from `src/nal/sps.rs`. -/
inductive AspectRatioInfo
  | Unspecified
  | Ratio1_1
  | Ratio12_11
  | Ratio10_11
  | Ratio16_11
  | Ratio40_33
  | Ratio24_11
  | Ratio20_11
  | Ratio32_11
  | Ratio80_33
  | Ratio18_11
  | Ratio15_11
  | Ratio64_33
  | Ratio160_99
  | Ratio4_3
  | Ratio3_2
  | Ratio2_1
  | Reserved (idc : Nat)
  | Extended (w h : Nat)
  deriving DecidableEq, Repr

/-- `AspectRatioInfo::read`. -/
def AspectRatioInfo.read (bits : BitList) :
    Except PError (Option AspectRatioInfo × BitList) := do
  let (present, bits) ← readBit bits
  if present then
    let (idc, bits) ← readU 8 bits
    match idc with
    | 0 => pure (some .Unspecified, bits)
    | 1 => pure (some .Ratio1_1, bits)
    | 2 => pure (some .Ratio12_11, bits)
    | 3 => pure (some .Ratio10_11, bits)
    | 4 => pure (some .Ratio16_11, bits)
    | 5 => pure (some .Ratio40_33, bits)
    | 6 => pure (some .Ratio24_11, bits)
    | 7 => pure (some .Ratio20_11, bits)
    | 8 => pure (some .Ratio32_11, bits)
    | 9 => pure (some .Ratio80_33, bits)
    | 10 => pure (some .Ratio18_11, bits)
    | 11 => pure (some .Ratio15_11, bits)
    | 12 => pure (some .Ratio64_33, bits)
    | 13 => pure (some .Ratio160_99, bits)
    | 14 => pure (some .Ratio4_3, bits)
    | 15 => pure (some .Ratio3_2, bits)
    | 16 => pure (some .Ratio2_1, bits)
    | 255 => do
      let (w, bits) ← readU 16 bits
      let (h, bits) ← readU 16 bits
      pure (some (.Extended w h), bits)
    | other => pure (some (.Reserved other), bits)
  else
    pure (none, bits)

/-- `OverscanAppropriate` from `src/nal/sps.rs`. -/
inductive OverscanAppropriate
  | Unspecified
  | Appropriate
  | Inappropriate
  deriving DecidableEq, Repr

/-- `OverscanAppropriate::read`. -/
def OverscanAppropriate.read (bits : BitList) :
    Except PError (OverscanAppropriate × BitList) := do
  let (present, bits) ← readBit bits
  if present then
    let (flag, bits) ← readBit bits
    if flag then pure (.Appropriate, bits) else pure (.Inappropriate, bits)
  else
    pure (.Unspecified, bits)

/-- `VideoFormat` from `src/nal/sps.rs`. -/
inductive VideoFormat
  | Component
  | PAL
  | NTSC
  | SECAM
  | MAC
  | Unspecified
  | Reserved (v : Nat)
  deriving DecidableEq, Repr

/-- `VideoFormat::from`: total on 0..=7, and panics (here: `none`) for any
larger value. -/
def VideoFormat.fromNat (video_format : Nat) : Option VideoFormat :=
  match video_format with
  | 0 => some .Component
  | 1 => some .PAL
  | 2 => some .NTSC
  | 3 => some .SECAM
  | 4 => some .MAC
  | 5 => some .Unspecified
  | 6 => some (.Reserved 6)
  | 7 => some (.Reserved 7)
  | _ => none

/-- `ColourDescription` from `src/nal/sps.rs`. -/
structure ColourDescription where
  colour_primaries : Nat
  transfer_characteristics : Nat
  matrix_coeffs : Nat
  deriving DecidableEq, Repr

/-- `ColourDescription::read`. -/
def ColourDescription.read (bits : BitList) :
    Except PError (Option ColourDescription × BitList) := do
  let (present, bits) ← readBit bits
  if present then
    let (cp, bits) ← readU 8 bits
    let (tc, bits) ← readU 8 bits
    let (mc, bits) ← readU 8 bits
    pure (some { colour_primaries := cp, transfer_characteristics := tc,
                 matrix_coeffs := mc }, bits)
  else
    pure (none, bits)

/-- `VideoSignalType` from `src/nal/sps.rs`. -/
structure VideoSignalType where
  video_format : VideoFormat
  video_full_range_flag : Bool
  colour_description : Option ColourDescription
  deriving DecidableEq, Repr

/-- `VideoSignalType::read`. The `VideoFormat::from` call sits on a 3-bit
read; a value it rejects would be a panic (`fatal`). -/
def VideoSignalType.read (bits : BitList) :
    Except PError (Option VideoSignalType × BitList) := do
  let (present, bits) ← readBit bits
  if present then
    let (vf_raw, bits) ← readU 3 bits
    match VideoFormat.fromNat vf_raw with
    | none => .error .fatal
    | some vf => do
      let (full_range, bits) ← readBit bits
      let (cd, bits) ← ColourDescription.read bits
      pure (some { video_format := vf, video_full_range_flag := full_range,
                   colour_description := cd }, bits)
  else
    pure (none, bits)

/-- `ChromaLocInfo` from `src/nal/sps.rs`. -/
structure ChromaLocInfo where
  chroma_sample_loc_type_top_field : Nat
  chroma_sample_loc_type_bottom_field : Nat
  deriving DecidableEq, Repr

/-- `ChromaLocInfo::read`. -/
def ChromaLocInfo.read (bits : BitList) :
    Except PError (Option ChromaLocInfo × BitList) := do
  let (present, bits) ← readBit bits
  if present then
    let (top, bits) ← readUe bits
    let (bottom, bits) ← readUe bits
    pure (some { chroma_sample_loc_type_top_field := top,
                 chroma_sample_loc_type_bottom_field := bottom }, bits)
  else
    pure (none, bits)

/-- `Window` from `src/nal/sps.rs`. -/
structure Window where
  win_left_offset : Nat
  win_right_offset : Nat
  win_top_offset : Nat
  win_bottom_offset : Nat
  deriving DecidableEq, Repr

instance : Inhabited Window := ⟨⟨0, 0, 0, 0⟩⟩

/-- `Window::read`. -/
def Window.read (bits : BitList) : Except PError (Option Window × BitList) := do
  let (flag, bits) ← readBit bits
  if flag then
    let (l, bits) ← readUe bits
    let (r, bits) ← readUe bits
    let (t, bits) ← readUe bits
    let (b, bits) ← readUe bits
    pure (some { win_left_offset := l, win_right_offset := r,
                 win_top_offset := t, win_bottom_offset := b }, bits)
  else
    pure (none, bits)

/-- `SubPicHrdParams` from `src/nal/sps.rs`. -/
structure SubPicHrdParams where
  tick_divisor_minus2 : Nat
  du_cpb_removal_delay_increment_length_minus1 : Nat
  sub_pic_cpb_params_in_pic_timing_sei_flag : Bool
  dpb_output_delay_du_length_minus1 : Nat
  cpb_size_du_scale : Nat
  deriving DecidableEq, Repr

/-- `SubPicHrdParams::read_partial` (leaves `cpb_size_du_scale` at 0, filled
in later). -/
def SubPicHrdParams.read_partial (bits : BitList) :
    Except PError (SubPicHrdParams × BitList) := do
  let (tick, bits) ← readU 8 bits
  let (du_len, bits) ← readU 5 bits
  let (sei_flag, bits) ← readBit bits
  let (dpb_len, bits) ← readU 5 bits
  pure ({ tick_divisor_minus2 := tick,
          du_cpb_removal_delay_increment_length_minus1 := du_len,
          sub_pic_cpb_params_in_pic_timing_sei_flag := sei_flag,
          dpb_output_delay_du_length_minus1 := dpb_len,
          cpb_size_du_scale := 0 }, bits)

/-- `HrdParametersCommonInfParameters` from `src/nal/sps.rs`. -/
structure HrdParametersCommonInfParameters where
  sub_pic_hrd_params : Option SubPicHrdParams
  bit_rate_scale : Nat
  cpb_size_scale : Nat
  initial_cpb_removal_delay_length_minus1 : Nat
  au_cpb_removal_delay_length_minus1 : Nat
  dpb_output_delay_length_minus1 : Nat
  deriving DecidableEq, Repr

/-- `HrdParametersCommonInfParameters::read`. -/
def HrdParametersCommonInfParameters.read (bits : BitList) :
    Except PError (HrdParametersCommonInfParameters × BitList) := do
  let (sub_pic_present, bits) ← readBit bits
  let (sub_pic, bits) ←
    if sub_pic_present then do
      let (p, bits) ← SubPicHrdParams.read_partial bits
      pure (some p, bits)
    else pure (none, bits)
  let (bit_rate_scale, bits) ← readU 4 bits
  let (cpb_size_scale, bits) ← readU 4 bits
  let (sub_pic, bits) ←
    match sub_pic with
    | some p => do
      let (du_scale, bits) ← readU 4 bits
      pure (some { p with cpb_size_du_scale := du_scale }, bits)
    | none => pure (none, bits)
  let (init_len, bits) ← readU 5 bits
  let (au_len, bits) ← readU 5 bits
  let (dpb_len, bits) ← readU 5 bits
  pure ({ sub_pic_hrd_params := sub_pic,
          bit_rate_scale := bit_rate_scale,
          cpb_size_scale := cpb_size_scale,
          initial_cpb_removal_delay_length_minus1 := init_len,
          au_cpb_removal_delay_length_minus1 := au_len,
          dpb_output_delay_length_minus1 := dpb_len }, bits)

/-- `HrdParametersCommonInf` from `src/nal/sps.rs`. -/
structure HrdParametersCommonInf where
  nal_hrd_parameters_present_flag : Bool
  vcl_hrd_parameters_present_flag : Bool
  parameters : Option HrdParametersCommonInfParameters
  deriving DecidableEq, Repr

/-- `HrdParametersCommonInf::read`. -/
def HrdParametersCommonInf.read (bits : BitList) :
    Except PError (HrdParametersCommonInf × BitList) := do
  let (nal_present, bits) ← readBit bits
  let (vcl_present, bits) ← readBit bits
  let (params, bits) ←
    if nal_present || vcl_present then do
      let (p, bits) ← HrdParametersCommonInfParameters.read bits
      pure (some p, bits)
    else pure (none, bits)
  pure ({ nal_hrd_parameters_present_flag := nal_present,
          vcl_hrd_parameters_present_flag := vcl_present,
          parameters := params }, bits)

/-- `SubLayerSubPicHrdParams` from `src/nal/sps.rs`. -/
structure SubLayerSubPicHrdParams where
  cpb_size_du_value_minus1 : Nat
  bit_rate_du_value_minus1 : Nat
  deriving DecidableEq, Repr

/-- `SubLayerHrdParameters` from `src/nal/sps.rs`. -/
structure SubLayerHrdParameters where
  bit_rate_value_minus1 : Nat
  cpb_size_value_minus1 : Nat
  sub_pic_hrd_params : Option SubLayerSubPicHrdParams
  cbr_flag : Bool
  deriving DecidableEq, Repr

/-- `SubLayerHrdParameters::read`. -/
def SubLayerHrdParameters.read (sub_pic_hrd_params_present : Bool)
    (bits : BitList) : Except PError (SubLayerHrdParameters × BitList) := do
  let (bit_rate, bits) ← readUe bits
  let (cpb_size, bits) ← readUe bits
  let (sub_pic, bits) ←
    if sub_pic_hrd_params_present then do
      let (du_cpb, bits) ← readUe bits
      let (du_rate, bits) ← readUe bits
      pure (some { cpb_size_du_value_minus1 := du_cpb,
                   bit_rate_du_value_minus1 := du_rate }, bits)
    else pure (none, bits)
  let (cbr, bits) ← readBit bits
  pure ({ bit_rate_value_minus1 := bit_rate, cpb_size_value_minus1 := cpb_size,
          sub_pic_hrd_params := sub_pic, cbr_flag := cbr }, bits)

/-- `SubLayerHrdParametersContainer` from `src/nal/sps.rs`. -/
structure SubLayerHrdParametersContainer where
  fixed_pic_rate_general_flag : Bool
  fixed_pic_rate_within_cvs_flag : Bool
  elemental_duration_in_tc_minus1 : Nat
  low_delay_hrd_flag : Bool
  cpb_cnt_minus1 : Nat
  nal_hrd_parameters : Option (List SubLayerHrdParameters)
  vcl_hrd_parameters : Option (List SubLayerHrdParameters)
  deriving DecidableEq, Repr

/-- `SubLayerHrdParametersContainer::read`. -/
def SubLayerHrdParametersContainer.read (nal_hrd_parameters_present : Bool)
    (vcl_hrd_parameters_present : Bool) (sub_pic_hrd_parameters_present : Bool)
    (bits : BitList) :
    Except PError (SubLayerHrdParametersContainer × BitList) := do
  let (fixed_general, bits) ← readBit bits
  let (fixed_within_cvs, bits) ←
    if !fixed_general then readBit bits else pure (true, bits)
  let (elemental_duration, low_delay, bits) ←
    if fixed_within_cvs then do
      let (d, bits) ← readUe bits
      pure (d, false, bits)
    else do
      let (l, bits) ← readBit bits
      pure (0, l, bits)
  let (cpb_cnt, bits) ←
    if !low_delay then readUe bits else pure (0, bits)
  let (nal_params, bits) ←
    if nal_hrd_parameters_present then do
      let (ps, bits) ←
        readN (SubLayerHrdParameters.read sub_pic_hrd_parameters_present)
          (cpb_cnt + 1) bits
      pure (some ps, bits)
    else pure (none, bits)
  let (vcl_params, bits) ←
    if vcl_hrd_parameters_present then do
      let (ps, bits) ←
        readN (SubLayerHrdParameters.read sub_pic_hrd_parameters_present)
          (cpb_cnt + 1) bits
      pure (some ps, bits)
    else pure (none, bits)
  pure ({ fixed_pic_rate_general_flag := fixed_general,
          fixed_pic_rate_within_cvs_flag := fixed_within_cvs,
          elemental_duration_in_tc_minus1 := elemental_duration,
          low_delay_hrd_flag := low_delay,
          cpb_cnt_minus1 := cpb_cnt,
          nal_hrd_parameters := nal_params,
          vcl_hrd_parameters := vcl_params }, bits)

/-- `HrdParameters` from `src/nal/sps.rs`. -/
structure HrdParameters where
  common : Option HrdParametersCommonInf
  sub_layers : List SubLayerHrdParametersContainer
  deriving DecidableEq, Repr

/-- `HrdParameters::read`. -/
def HrdParameters.read (common_inf_present_flag : Bool)
    (max_num_sub_layers_minus1 : Nat) (bits : BitList) :
    Except PError (Option HrdParameters × BitList) := do
  let (present, bits) ← readBit bits
  if present then
    let (common, bits) ←
      if common_inf_present_flag then do
        let (c, bits) ← HrdParametersCommonInf.read bits
        pure (some c, bits)
      else pure (none, bits)
    let nal_hrd := (common.map (·.nal_hrd_parameters_present_flag)).getD false
    let vcl_hrd := (common.map (·.vcl_hrd_parameters_present_flag)).getD false
    let sub_pic_hrd :=
      ((common.bind (·.parameters)).map (·.sub_pic_hrd_params.isSome)).getD false
    let (sub_layers, bits) ←
      readN (SubLayerHrdParametersContainer.read nal_hrd vcl_hrd sub_pic_hrd)
        (max_num_sub_layers_minus1 + 1) bits
    pure (some { common := common, sub_layers := sub_layers }, bits)
  else
    pure (none, bits)

/-- `TimingInfo::read_num_ticks`. -/
def TimingInfo.read_num_ticks (bits : BitList) :
    Except PError (Option Nat × BitList) := do
  let (flag, bits) ← readBit bits
  if flag then
    let (v, bits) ← readUe bits
    pure (some v, bits)
  else
    pure (none, bits)

/-- `TimingInfo` from `src/nal/sps.rs`. -/
structure TimingInfo where
  num_units_in_tick : Nat
  time_scale : Nat
  num_ticks_poc_diff_one_minus1 : Option Nat
  hrd_parameters : Option HrdParameters
  deriving DecidableEq, Repr

/-- `TimingInfo::read`. -/
def TimingInfo.read (hrd_common_inf_present : Bool)
    (max_sub_layers_minus1 : Nat) (bits : BitList) :
    Except PError (Option TimingInfo × BitList) := do
  let (present, bits) ← readBit bits
  if present then
    let (num_units, bits) ← readU 32 bits
    let (time_scale, bits) ← readU 32 bits
    let (num_ticks, bits) ← TimingInfo.read_num_ticks bits
    let (hrd, bits) ← HrdParameters.read hrd_common_inf_present
      max_sub_layers_minus1 bits
    pure (some { num_units_in_tick := num_units, time_scale := time_scale,
                 num_ticks_poc_diff_one_minus1 := num_ticks,
                 hrd_parameters := hrd }, bits)
  else
    pure (none, bits)

/-- `BitstreamRestrictions` from `src/nal/sps.rs`. -/
structure BitstreamRestrictions where
  tiles_fixed_structure_flag : Bool
  motion_vectors_over_pic_boundaries_flag : Bool
  restricted_ref_pic_lists_flag : Bool
  min_spatial_segmentation_idc : Nat
  max_bytes_per_pic_denom : Nat
  max_bits_per_mb_denom : Nat
  log2_max_mv_length_horizontal : Nat
  log2_max_mv_length_vertical : Nat
  deriving DecidableEq, Repr

/-- `BitstreamRestrictions::read`. -/
def BitstreamRestrictions.read (bits : BitList) :
    Except PError (Option BitstreamRestrictions × BitList) := do
  let (present, bits) ← readBit bits
  if present then
    let (tiles, bits) ← readBit bits
    let (mv_over, bits) ← readBit bits
    let (restricted, bits) ← readBit bits
    let (min_spatial, bits) ← readUe bits
    let (max_bytes, bits) ← readUe bits
    let (max_bits, bits) ← readUe bits
    let (mv_h, bits) ← readUe bits
    let (mv_v, bits) ← readUe bits
    pure (some { tiles_fixed_structure_flag := tiles,
                 motion_vectors_over_pic_boundaries_flag := mv_over,
                 restricted_ref_pic_lists_flag := restricted,
                 min_spatial_segmentation_idc := min_spatial,
                 max_bytes_per_pic_denom := max_bytes,
                 max_bits_per_mb_denom := max_bits,
                 log2_max_mv_length_horizontal := mv_h,
                 log2_max_mv_length_vertical := mv_v }, bits)
  else
    pure (none, bits)

/-- `LayerProfile` from `src/nal/sps.rs`. `profile_compatibility_flag` is the
32-entry flag array. -/
structure LayerProfile where
  profile_space : Nat
  tier_flag : Bool
  profile_idc : Nat
  profile_compatibility_flag : List Bool
  progressive_source_flag : Bool
  interlaced_source_flag : Bool
  non_packed_constraint_flag : Bool
  frame_only_constraint_flag : Bool
  max_14bit_constraint_flag : Bool
  max_12bit_constraint_flag : Bool
  max_10bit_constraint_flag : Bool
  max_8bit_constraint_flag : Bool
  max_422chroma_constraint_flag : Bool
  max_420chroma_constraint_flag : Bool
  max_monochrome_constraint_flag : Bool
  intra_constraint_flag : Bool
  one_picture_only_constraint_flag : Bool
  lower_bit_rate_constraint_flag : Bool
  inbld_flag : Bool
  deriving DecidableEq, Repr

instance : Inhabited LayerProfile :=
  ⟨⟨0, false, 0, List.replicate 32 false, false, false, false, false, false,
    false, false, false, false, false, false, false, false, false, false⟩⟩

/-- Lookup of `profile_compatibility_flag[j]` (always in bounds in the
source, where the array has fixed length 32). -/
def LayerProfile.compat (p : LayerProfile) (j : Nat) : Bool :=
  p.profile_compatibility_flag.getD j false

/-- `LayerProfile::read`. -/
def LayerProfile.read (bits : BitList) : Except PError (LayerProfile × BitList) := do
  let (profile_space, bits) ← readU 2 bits
  let (tier_flag, bits) ← readBit bits
  let (profile_idc, bits) ← readU 5 bits
  let (compat, bits) ← readN readBit 32 bits
  let (progressive, bits) ← readBit bits
  let (interlaced, bits) ← readBit bits
  let (non_packed, bits) ← readBit bits
  let (frame_only, bits) ← readBit bits
  let cf := fun j => compat.getD j false
  let mut profile : LayerProfile :=
    { (default : LayerProfile) with
      profile_space := profile_space,
      tier_flag := tier_flag,
      profile_idc := profile_idc,
      profile_compatibility_flag := compat,
      progressive_source_flag := progressive,
      interlaced_source_flag := interlaced,
      non_packed_constraint_flag := non_packed,
      frame_only_constraint_flag := frame_only }
  let mut b := bits
  if profile_idc == 4 || cf 4 || profile_idc == 5 || cf 5
      || profile_idc == 6 || cf 6 || profile_idc == 7 || cf 7
      || profile_idc == 8 || cf 8 || profile_idc == 9 || cf 9
      || profile_idc == 10 || cf 10 || profile_idc == 11 || cf 11 then
    let (v12, b1) ← readBit b
    let (v10, b2) ← readBit b1
    let (v8, b3) ← readBit b2
    let (v422, b4) ← readBit b3
    let (v420, b5) ← readBit b4
    let (vmono, b6) ← readBit b5
    let (vintra, b7) ← readBit b6
    let (vone, b8) ← readBit b7
    let (vlow, b9) ← readBit b8
    profile := { profile with
      max_12bit_constraint_flag := v12,
      max_10bit_constraint_flag := v10,
      max_8bit_constraint_flag := v8,
      max_422chroma_constraint_flag := v422,
      max_420chroma_constraint_flag := v420,
      max_monochrome_constraint_flag := vmono,
      intra_constraint_flag := vintra,
      one_picture_only_constraint_flag := vone,
      lower_bit_rate_constraint_flag := vlow }
    b := b9
    if profile_idc == 5 || cf 5 || profile_idc == 9 || cf 9
        || profile_idc == 10 || cf 10 || profile_idc == 11 || cf 11 then
      let (v14, b10) ← readBit b
      let (_z, b11) ← readU 32 b10
      let (_z, b12) ← readU 1 b11
      profile := { profile with max_14bit_constraint_flag := v14 }
      b := b12
    else
      let (_z, b10) ← readU 32 b
      let (_z, b11) ← readU 2 b10
      b := b11
  else if profile_idc == 2 || cf 2 then
    let (_z, b1) ← readU 7 b
    let (vone, b2) ← readBit b1
    let (_z, b3) ← readU 32 b2
    let (_z, b4) ← readU 3 b3
    profile := { profile with one_picture_only_constraint_flag := vone }
    b := b4
  else
    let (_z, b1) ← readU 32 b
    let (_z, b2) ← readU 11 b1
    b := b2
  if profile_idc == 1 || cf 1 || profile_idc == 2 || cf 2
      || profile_idc == 3 || cf 3 || profile_idc == 4 || cf 4
      || profile_idc == 5 || cf 5 || profile_idc == 9 || cf 9
      || profile_idc == 11 || cf 11 then
    let (inbld, b1) ← readBit b
    profile := { profile with inbld_flag := inbld }
    b := b1
  else
    let (_z, b1) ← readBit b
    b := b1
  pure (profile, b)

/-- `LayerProfile::tier`. -/
def LayerProfile.tier (p : LayerProfile) : Tier :=
  Tier.from_tier_flag p.tier_flag

/-- `LayerProfile::profile`: classify the raw flags into the "lowest"
compatible named profile, falling back to `Unknown(profile_idc)`. -/
def LayerProfile.profile (p : LayerProfile) : Profile :=
  if p.profile_idc = 1 ∨ p.compat 1 = true then
    .Main
  else if p.profile_idc = 2 ∨ p.compat 2 = true then
    if p.one_picture_only_constraint_flag then .Main10StillPicture else .Main10
  else if p.profile_idc = 3 ∨ p.compat 3 = true then
    .MainStillPicture
  else if p.profile_idc = 4 ∨ p.compat 4 = true then
    match p.max_12bit_constraint_flag, p.max_10bit_constraint_flag,
        p.max_8bit_constraint_flag, p.max_422chroma_constraint_flag,
        p.max_420chroma_constraint_flag, p.max_monochrome_constraint_flag,
        p.intra_constraint_flag, p.one_picture_only_constraint_flag,
        p.lower_bit_rate_constraint_flag with
    | true, true, true, true, true, true, false, false, true => .Monochrome
    | true, true, false, true, true, true, false, false, true => .Monochrome10
    | true, false, false, true, true, true, false, false, true => .Monochrome12
    | false, false, false, true, true, true, false, false, true => .Monochrome16
    | true, false, false, true, true, false, false, false, true => .Main12
    | true, true, false, true, false, false, false, false, true => .Main422_10
    | true, false, false, true, false, false, false, false, true => .Main422_12
    | true, true, true, false, false, false, false, false, true => .Main444
    | true, true, false, false, false, false, false, false, true => .Main444_10
    | true, false, false, false, false, false, false, false, true => .Main444_12
    | true, true, true, true, true, false, true, false, _ => .MainIntra
    | true, true, false, true, true, false, true, false, _ => .Main10Intra
    | true, false, false, true, true, false, true, false, _ => .Main12Intra
    | true, true, false, true, false, false, true, false, _ => .Main422_10Intra
    | true, false, false, true, false, false, true, false, _ => .Main422_12Intra
    | true, true, true, false, false, false, true, false, _ => .Main444Intra
    | true, true, false, false, false, false, true, false, _ => .Main444_10Intra
    | true, false, false, false, false, false, true, false, _ => .Main444_12Intra
    | false, false, false, false, false, false, true, false, _ => .Main444_16Intra
    | true, true, true, false, false, false, true, true, _ => .Main444StillPicture
    | false, false, false, false, false, false, true, true, _ => .Main444_16StillPicture
    | _, _, _, _, _, _, _, _, _ => .Unknown p.profile_idc
  else if p.profile_idc = 5 ∨ p.compat 5 = true then
    match p.max_14bit_constraint_flag, p.max_12bit_constraint_flag,
        p.max_10bit_constraint_flag, p.max_8bit_constraint_flag,
        p.max_422chroma_constraint_flag, p.max_420chroma_constraint_flag,
        p.max_monochrome_constraint_flag, p.intra_constraint_flag,
        p.one_picture_only_constraint_flag, p.lower_bit_rate_constraint_flag with
    | true, true, true, true, false, false, false, false, false, true => .HighThroughput444
    | true, true, true, false, false, false, false, false, false, true => .HighThroughput444_10
    | true, false, false, false, false, false, false, false, false, true => .HighThroughput444_14
    | false, false, false, false, false, false, false, true, false, _ => .HighThroughput444_16Intra
    | _, _, _, _, _, _, _, _, _, _ => .Unknown p.profile_idc
  else if p.profile_idc = 6 ∨ p.compat 6 = true then
    match p.max_12bit_constraint_flag, p.max_10bit_constraint_flag,
        p.max_8bit_constraint_flag, p.max_422chroma_constraint_flag,
        p.max_420chroma_constraint_flag, p.max_monochrome_constraint_flag,
        p.intra_constraint_flag, p.one_picture_only_constraint_flag,
        p.lower_bit_rate_constraint_flag with
    | true, true, true, true, true, false, false, false, true => .MultiviewMain
    | _, _, _, _, _, _, _, _, _ => .Unknown p.profile_idc
  else if p.profile_idc = 7 ∨ p.compat 7 = true then
    match p.max_12bit_constraint_flag, p.max_10bit_constraint_flag,
        p.max_8bit_constraint_flag, p.max_422chroma_constraint_flag,
        p.max_420chroma_constraint_flag, p.max_monochrome_constraint_flag,
        p.intra_constraint_flag, p.one_picture_only_constraint_flag,
        p.lower_bit_rate_constraint_flag with
    | true, true, true, true, true, false, false, false, true => .ScalableMain
    | true, true, false, true, true, false, false, false, true => .ScalableMain10
    | _, _, _, _, _, _, _, _, _ => .Unknown p.profile_idc
  else if p.profile_idc = 8 ∨ p.compat 8 = true then
    match p.max_12bit_constraint_flag, p.max_10bit_constraint_flag,
        p.max_8bit_constraint_flag, p.max_422chroma_constraint_flag,
        p.max_420chroma_constraint_flag, p.max_monochrome_constraint_flag,
        p.intra_constraint_flag, p.one_picture_only_constraint_flag,
        p.lower_bit_rate_constraint_flag with
    | true, true, true, true, true, false, false, false, true => .ThreeDeeMain
    | _, _, _, _, _, _, _, _, _ => .Unknown p.profile_idc
  else if p.profile_idc = 9 ∨ p.compat 9 = true then
    match p.max_14bit_constraint_flag, p.max_12bit_constraint_flag,
        p.max_10bit_constraint_flag, p.max_8bit_constraint_flag,
        p.max_422chroma_constraint_flag, p.max_420chroma_constraint_flag,
        p.max_monochrome_constraint_flag, p.intra_constraint_flag,
        p.one_picture_only_constraint_flag, p.lower_bit_rate_constraint_flag with
    | true, true, true, true, true, true, false, false, false, true => .ScreenExtendedMain
    | true, true, true, false, true, true, false, false, false, true => .ScreenExtendedMain10
    | true, true, true, true, false, false, false, false, false, true => .ScreenExtendedMain444
    | true, true, true, false, false, false, false, false, false, true => .ScreenExtendedMain444_10
    | _, _, _, _, _, _, _, _, _, _ => .Unknown p.profile_idc
  else if p.profile_idc = 10 ∨ p.compat 10 = true then
    match p.max_14bit_constraint_flag, p.max_12bit_constraint_flag,
        p.max_10bit_constraint_flag, p.max_8bit_constraint_flag,
        p.max_422chroma_constraint_flag, p.max_420chroma_constraint_flag,
        p.max_monochrome_constraint_flag, p.intra_constraint_flag,
        p.one_picture_only_constraint_flag, p.lower_bit_rate_constraint_flag with
    | true, true, true, true, true, true, true, false, false, true => .ScalableMonochrome
    | true, true, false, false, true, true, true, false, false, true => .ScalableMonochrome12
    | false, false, false, false, true, true, true, false, false, true => .ScalableMonochrome16
    | true, true, true, true, false, false, false, false, false, true => .ScalableMain444
    | _, _, _, _, _, _, _, _, _, _ => .Unknown p.profile_idc
  else if p.profile_idc = 11 ∨ p.compat 11 = true then
    match p.max_14bit_constraint_flag, p.max_12bit_constraint_flag,
        p.max_10bit_constraint_flag, p.max_8bit_constraint_flag,
        p.max_422chroma_constraint_flag, p.max_420chroma_constraint_flag,
        p.max_monochrome_constraint_flag, p.intra_constraint_flag,
        p.one_picture_only_constraint_flag, p.lower_bit_rate_constraint_flag with
    | true, true, true, true, false, false, false, false, false, true => .ScreenExtendedHighThroughput444
    | true, true, true, false, false, false, false, false, false, true => .ScreenExtendedHighThroughput444_10
    | true, false, false, false, false, false, false, false, false, true => .ScreenExtendedHighThroughput444_14
    | _, _, _, _, _, _, _, _, _, _ => .Unknown p.profile_idc
  else
    .Unknown p.profile_idc

/-- `SubLayerProfileLevel` from `src/nal/sps.rs`. -/
structure SubLayerProfileLevel where
  profile : Option LayerProfile
  level_idc : Option Nat
  deriving DecidableEq, Repr

instance : Inhabited SubLayerProfileLevel := ⟨⟨none, none⟩⟩

/-- `SubLayerProfileLevel::read`. -/
def SubLayerProfileLevel.read (profile_present level_present : Bool)
    (bits : BitList) : Except PError (SubLayerProfileLevel × BitList) := do
  let (profile, bits) ←
    match profile_present with
    | true => do
      let (p, bits) ← LayerProfile.read bits
      pure (some p, bits)
    | false => pure (none, bits)
  let (level_idc, bits) ←
    match level_present with
    | true => do
      let (l, bits) ← readU 8 bits
      pure (some l, bits)
    | false => pure (none, bits)
  pure ({ profile := profile, level_idc := level_idc }, bits)

/-- `SeqParameterSet::validate_max_num_sub_layers_minus1`. -/
def validate_max_num_sub_layers_minus1 (v : Nat) : Except PError Unit :=
  if v > 7 then .error (.err (.fieldValueTooLarge .max_num_sub_layers_minus1 v))
  else .ok ()

/-- Sequentially parse one `SubLayerProfileLevel` per presence-flag pair. -/
def readSubLayers : List (Bool × Bool) → BitList →
    Except PError (List SubLayerProfileLevel × BitList)
  | [], bits => .ok ([], bits)
  | (pp, lp) :: rest, bits =>
    match SubLayerProfileLevel.read pp lp bits with
    | .error e => .error e
    | .ok (x, bits2) =>
      match readSubLayers rest bits2 with
      | .error e => .error e
      | .ok (xs, bits3) => .ok (x :: xs, bits3)

/-- `ProfileTierLevel` from `src/nal/sps.rs`: general profile/level plus the
fixed 7 sub-layer slots. -/
structure ProfileTierLevel where
  general_profile : Option LayerProfile
  general_level_idc : Nat
  sub_layers : List SubLayerProfileLevel
  deriving DecidableEq, Repr

instance : Inhabited ProfileTierLevel :=
  ⟨⟨none, 0, List.replicate 7 default⟩⟩

/-- A pair of presence flags for one sub-layer. -/
def readPresencePair (bits : BitList) : Except PError ((Bool × Bool) × BitList) := do
  let (p, bits) ← readBit bits
  let (l, bits) ← readBit bits
  pure ((p, l), bits)

/-- `ProfileTierLevel::read`. -/
def ProfileTierLevel.read (profile_present_flag : Bool)
    (max_num_sub_layers_minus1 : Nat) (bits : BitList) :
    Except PError (ProfileTierLevel × BitList) := do
  let (general_profile, bits) ←
    match profile_present_flag with
    | true => do
      let (p, bits) ← LayerProfile.read bits
      pure (some p, bits)
    | false => pure (none, bits)
  let (general_level_idc, bits) ← readU 8 bits
  validate_max_num_sub_layers_minus1 max_num_sub_layers_minus1
  let (pairs, bits) ← readN readPresencePair max_num_sub_layers_minus1 bits
  let padded := pairs ++ List.replicate (7 - max_num_sub_layers_minus1) (false, false)
  let (_align, bits) ←
    if max_num_sub_layers_minus1 > 0 then
      readN (readU 2) (8 - max_num_sub_layers_minus1) bits
    else pure ([], bits)
  let (sub_layers, bits) ← readSubLayers padded bits
  pure ({ general_profile := general_profile,
          general_level_idc := general_level_idc,
          sub_layers := sub_layers }, bits)

/-- `LayerInfo` from `src/nal/sps.rs`. -/
structure LayerInfo where
  sps_max_dec_pic_buffering_minus1 : Nat
  sps_max_num_reorder_pics : Nat
  sps_max_latency_increase_plus1 : Nat
  deriving DecidableEq, Repr

/-- `LayerInfo::read_layer`. -/
def LayerInfo.read_layer (bits : BitList) : Except PError (LayerInfo × BitList) := do
  let (buffering, bits) ← readUe bits
  let (reorder, bits) ← readUe bits
  let (latency, bits) ← readUe bits
  pure ({ sps_max_dec_pic_buffering_minus1 := buffering,
          sps_max_num_reorder_pics := reorder,
          sps_max_latency_increase_plus1 := latency }, bits)

/-- `LayerInfo::read`. -/
def LayerInfo.read (sps_max_sub_layers_minus1 : Nat) (bits : BitList) :
    Except PError (List LayerInfo × BitList) := do
  validate_max_num_sub_layers_minus1 sps_max_sub_layers_minus1
  let (present, bits) ← readBit bits
  if present then
    readN LayerInfo.read_layer (sps_max_sub_layers_minus1 + 1) bits
  else do
    let (l, bits) ← LayerInfo.read_layer bits
    pure ([l], bits)

/-- `ScalingList` from `src/nal/sps.rs` (contents are not stored). -/
structure ScalingList where
  deriving DecidableEq, Repr

/-- `(0..n).step_by(step)`: the matrix-id iteration values of a size class. -/
def stepRange (n step : Nat) : List Nat :=
  (List.range n).filter (fun i => i % step = 0)

/-- The coefficient loop of one explicit scaling-list entry: `coef_num`
signed Exp-Golomb deltas, with the running `next_coef` accumulator of the
source ((next_coef + delta + 256) % 256, value discarded). -/
def readScalingListCoefs : Nat → Int → BitList → Except PError BitList
  | 0, _next_coef, bits => .ok bits
  | n + 1, next_coef, bits =>
    match readSe bits with
    | .error e => .error e
    | .ok (delta, bits2) =>
      readScalingListCoefs n (Int.tmod (next_coef + delta + 256) 256) bits2

/-- One `(size_id, matrix_id)` entry of `ScalingList::read_scaling_list`:
a prediction-mode flag, then either the matrix-id delta or the DC
coefficient (for size classes above 1) and the delta-coefficient run. -/
def readScalingListEntry (size_id : Nat) (bits : BitList) :
    Except PError BitList := do
  let (pred_mode, bits) ← readBit bits
  if !pred_mode then
    let (_delta, bits) ← readUe bits
    pure bits
  else
    let coef_num := min 64 (2 ^ (4 + size_id * 2))
    let (next_coef, bits) ←
      if size_id > 1 then do
        let (dc, bits) ← readSe bits
        pure (dc + 8, bits)
      else pure ((8 : Int), bits)
    readScalingListCoefs coef_num next_coef bits

/-- The inner matrix-id loop of `ScalingList::read_scaling_list`. -/
def readScalingMatrixLoop (size_id : Nat) : List Nat → BitList →
    Except PError BitList
  | [], bits => .ok bits
  | _m :: ms, bits =>
    match readScalingListEntry size_id bits with
    | .error e => .error e
    | .ok bits2 => readScalingMatrixLoop size_id ms bits2

/-- The outer size-id loop of `ScalingList::read_scaling_list`. -/
def readScalingSizeLoop : List Nat → BitList → Except PError BitList
  | [], bits => .ok bits
  | s :: ss, bits =>
    match readScalingMatrixLoop s (stepRange 6 (if s == 3 then 3 else 1)) bits with
    | .error e => .error e
    | .ok bits2 => readScalingSizeLoop ss bits2

/-- `ScalingList::read_scaling_list`: `for size_id in 0..4`, inner matrix-id
loop stepping by 3 when `size_id == 3` and by 1 otherwise. -/
def ScalingList.read_scaling_list (bits : BitList) :
    Except PError (ScalingList × BitList) :=
  match readScalingSizeLoop (List.range 4) bits with
  | .error e => .error e
  | .ok bits2 => .ok (ScalingList.mk, bits2)

/-- `ScalingList::read`. -/
def ScalingList.read (bits : BitList) :
    Except PError (Option ScalingList × BitList) := do
  let (enabled, bits) ← readBit bits
  if enabled then
    let (data_present, bits) ← readBit bits
    if data_present then
      let (sl, bits) ← ScalingList.read_scaling_list bits
      pure (some sl, bits)
    else
      pure (some ScalingList.mk, bits)
  else
    pure (none, bits)

/-- `Pcm` from `src/nal/sps.rs`. -/
structure Pcm where
  pcm_sample_bit_depth_luma_minus1 : Nat
  pcm_sample_bit_depth_chroma_minus1 : Nat
  log2_min_pcm_luma_coding_block_size_minus3 : Nat
  log2_diff_max_min_pcm_luma_coding_block_size : Nat
  pcm_loop_filter_disabled : Bool
  deriving DecidableEq, Repr

/-- `Pcm::read`. -/
def Pcm.read (bits : BitList) : Except PError (Option Pcm × BitList) := do
  let (enabled, bits) ← readBit bits
  if enabled then
    let (luma, bits) ← readU 4 bits
    let (chroma, bits) ← readU 4 bits
    let (min_size, bits) ← readUe bits
    let (diff_size, bits) ← readUe bits
    let (loop_filter, bits) ← readBit bits
    pure (some { pcm_sample_bit_depth_luma_minus1 := luma,
                 pcm_sample_bit_depth_chroma_minus1 := chroma,
                 log2_min_pcm_luma_coding_block_size_minus3 := min_size,
                 log2_diff_max_min_pcm_luma_coding_block_size := diff_size,
                 pcm_loop_filter_disabled := loop_filter }, bits)
  else
    pure (none, bits)

/-- `ShortTermRef` from `src/nal/sps.rs`: one `(delta_poc_minus1, used)`
entry. -/
structure ShortTermRef where
  delta_poc_minus1 : Int
  used_by_curr_pic_flag : Bool
  deriving DecidableEq, Repr

instance : Inhabited ShortTermRef := ⟨⟨0, false⟩⟩

/-- `ShortTermRefPicSet` from `src/nal/sps.rs`. -/
structure ShortTermRefPicSet where
  negative_pics_s0 : List ShortTermRef
  positive_pics_s1 : List ShortTermRef
  deriving DecidableEq, Repr

instance : Inhabited ShortTermRefPicSet := ⟨⟨[], []⟩⟩

/-- `ShortTermRefPicSet::num_negative_pics`. -/
def ShortTermRefPicSet.num_negative_pics (s : ShortTermRefPicSet) : Nat :=
  s.negative_pics_s0.length

/-- `ShortTermRefPicSet::num_positive_pics`. -/
def ShortTermRefPicSet.num_positive_pics (s : ShortTermRefPicSet) : Nat :=
  s.positive_pics_s1.length

/-- `ShortTermRefPicSet::num_delta_pocs`. -/
def ShortTermRefPicSet.num_delta_pocs (s : ShortTermRefPicSet) : Nat :=
  s.num_negative_pics + s.num_positive_pics

/-- The `used_by_curr_pic_flag[j]` / `use_delta_flag[j]` read loop of
`ShortTermRefPicSet::read`: `count` iterations, each reading the used flag
and, only when it is set, the use-delta flag (defaulting it to `true`
without consuming a bit otherwise). -/
def readFlagPairs : Nat → BitList →
    Except PError ((List Bool × List Bool) × BitList)
  | 0, bits => .ok (([], []), bits)
  | n + 1, bits =>
    match readBit bits with
    | .error e => .error e
    | .ok (used, bits2) =>
      match (if used then readBit bits2 else .ok (true, bits2)) with
      | .error e => .error e
      | .ok (ud, bits3) =>
        match readFlagPairs n bits3 with
        | .error e => .error e
        | .ok ((us, uds), bits4) => .ok ((used :: us, ud :: uds), bits4)

/-- The signed 32-bit range. Rust debug builds panic when an `i32`
arithmetic result leaves this range; such overflow is modelled as the
`fatal` outcome. -/
def i32InRange (v : Int) : Prop := -(2 ^ 31) ≤ v ∧ v < 2 ^ 31

instance (v : Int) : Decidable (i32InRange v) := And.decidable

/-- Run one push-if step per scan index, in order, appending kept entries
to the accumulator and propagating a fatal arithmetic overflow. -/
def scanPush (step : Nat → Except PError (Option ShortTermRef)) :
    List Nat → List ShortTermRef → Except PError (List ShortTermRef)
  | [], acc => .ok acc
  | j :: js, acc =>
    match step j with
    | .error e => .error e
    | .ok none => scanPush step js acc
    | .ok (some x) => scanPush step js (acc ++ [x])

/-- One iteration of the reverse pass over the referenced set's S1 list in
the S0 derivation of `ShortTermRefPicSet::read`: the `i32` additions
`delta_poc_minus1 + 1`, `+ delta_rps` and (for a kept entry) `d_poc - 1`
abort fatally on overflow, as in a debug build of the source. -/
def s0FromS1Entry (refRps : ShortTermRefPicSet) (deltaRps : Int)
    (usedByCurrPic useDelta : List Bool) (j : Nat) :
    Except PError (Option ShortTermRef) :=
  let deltaPocS1 := (refRps.positive_pics_s1.getD j default).delta_poc_minus1 + 1
  if i32InRange deltaPocS1 then
    let dPoc := deltaPocS1 + deltaRps
    if i32InRange dPoc then
      if dPoc < 0 ∧ useDelta.getD (refRps.num_negative_pics + j) false = true then
        if i32InRange (dPoc - 1) then
          .ok (some ⟨dPoc - 1, usedByCurrPic.getD (refRps.num_negative_pics + j) false⟩)
        else .error .fatal
      else .ok none
    else .error .fatal
  else .error .fatal

/-- One iteration of the forward pass over the referenced set's S0 list in
the S0 derivation, with the same checked `i32` arithmetic. -/
def s0FromS0Entry (refRps : ShortTermRefPicSet) (deltaRps : Int)
    (usedByCurrPic useDelta : List Bool) (j : Nat) :
    Except PError (Option ShortTermRef) :=
  let deltaPocS0 := (refRps.negative_pics_s0.getD j default).delta_poc_minus1 + 1
  if i32InRange deltaPocS0 then
    let dPoc := deltaPocS0 + deltaRps
    if i32InRange dPoc then
      if dPoc < 0 ∧ useDelta.getD j false = true then
        if i32InRange (dPoc - 1) then
          .ok (some ⟨dPoc - 1, usedByCurrPic.getD j false⟩)
        else .error .fatal
      else .ok none
    else .error .fatal
  else .error .fatal

/-- One iteration of the reverse pass over the referenced set's S0 list in
the S1 derivation, keeping positive shifted deltas. -/
def s1FromS0Entry (refRps : ShortTermRefPicSet) (deltaRps : Int)
    (usedByCurrPic useDelta : List Bool) (j : Nat) :
    Except PError (Option ShortTermRef) :=
  let deltaPocS0 := (refRps.negative_pics_s0.getD j default).delta_poc_minus1 + 1
  if i32InRange deltaPocS0 then
    let dPoc := deltaPocS0 + deltaRps
    if i32InRange dPoc then
      if dPoc > 0 ∧ useDelta.getD j false = true then
        if i32InRange (dPoc - 1) then
          .ok (some ⟨dPoc - 1, usedByCurrPic.getD j false⟩)
        else .error .fatal
      else .ok none
    else .error .fatal
  else .error .fatal

/-- One iteration of the forward pass over the referenced set's S1 list in
the S1 derivation, keeping positive shifted deltas. -/
def s1FromS1Entry (refRps : ShortTermRefPicSet) (deltaRps : Int)
    (usedByCurrPic useDelta : List Bool) (j : Nat) :
    Except PError (Option ShortTermRef) :=
  let deltaPocS1 := (refRps.positive_pics_s1.getD j default).delta_poc_minus1 + 1
  if i32InRange deltaPocS1 then
    let dPoc := deltaPocS1 + deltaRps
    if i32InRange dPoc then
      if dPoc > 0 ∧ useDelta.getD (refRps.num_negative_pics + j) false = true then
        if i32InRange (dPoc - 1) then
          .ok (some ⟨dPoc - 1, usedByCurrPic.getD (refRps.num_negative_pics + j) false⟩)
        else .error .fatal
      else .ok none
    else .error .fatal
  else .error .fatal

/-- The derivation of the new S0 (negative) list in
`ShortTermRefPicSet::read`, translated loop for loop from the source: a
reverse pass over the referenced set's S1 list, the `delta_rps` boundary
term, then a forward pass over the referenced set's S0 list, each appending
to the same accumulator; every `i32` addition or subtraction that would
overflow is the fatal (debug-panic) outcome. -/
def ShortTermRefPicSet.deriveNegativePicsS0 (refRps : ShortTermRefPicSet)
    (deltaRps : Int) (usedByCurrPic useDelta : List Bool) :
    Except PError (List ShortTermRef) :=
  match scanPush (s0FromS1Entry refRps deltaRps usedByCurrPic useDelta)
      ((List.range refRps.num_positive_pics).reverse) [] with
  | .error e => .error e
  | .ok acc =>
    match (if deltaRps < 0 ∧ useDelta.getD refRps.num_delta_pocs false = true then
             if i32InRange (deltaRps - 1) then
               Except.ok (acc ++ [⟨deltaRps - 1,
                 usedByCurrPic.getD refRps.num_delta_pocs false⟩])
             else Except.error PError.fatal
           else Except.ok acc : Except PError (List ShortTermRef)) with
    | .error e => .error e
    | .ok acc =>
      scanPush (s0FromS0Entry refRps deltaRps usedByCurrPic useDelta)
        (List.range refRps.num_negative_pics) acc

/-- The derivation of the new S1 (positive) list in
`ShortTermRefPicSet::read`: the symmetric three passes (reverse over the
referenced S0, the boundary term, forward over the referenced S1), keeping
positive shifted deltas, with the same checked `i32` arithmetic. -/
def ShortTermRefPicSet.derivePositivePicsS1 (refRps : ShortTermRefPicSet)
    (deltaRps : Int) (usedByCurrPic useDelta : List Bool) :
    Except PError (List ShortTermRef) :=
  match scanPush (s1FromS0Entry refRps deltaRps usedByCurrPic useDelta)
      ((List.range refRps.num_negative_pics).reverse) [] with
  | .error e => .error e
  | .ok acc =>
    match (if deltaRps > 0 ∧ useDelta.getD refRps.num_delta_pocs false = true then
             if i32InRange (deltaRps - 1) then
               Except.ok (acc ++ [⟨deltaRps - 1,
                 usedByCurrPic.getD refRps.num_delta_pocs false⟩])
             else Except.error PError.fatal
           else Except.ok acc : Except PError (List ShortTermRef)) with
    | .error e => .error e
    | .ok acc =>
      scanPush (s1FromS1Entry refRps deltaRps usedByCurrPic useDelta)
        (List.range refRps.num_positive_pics) acc

/-- One directly-coded `(delta_poc_minus1, used_by_curr_pic_flag)` pair
(the `u32 as i32` cast of the source included). -/
def readDeltaPocPair (bits : BitList) : Except PError (ShortTermRef × BitList) := do
  let (delta, bits) ← readUe bits
  let (used, bits) ← readBit bits
  pure ({ delta_poc_minus1 := u32ToI32 delta, used_by_curr_pic_flag := used }, bits)

/-- `ShortTermRefPicSet::read`. Unchecked operations of the source —
`i32::try_from(...).expect`, the `u32` subtraction producing `ref_rps_idx`,
the `i32` addition `abs_delta_rps_minus1 + 1` inside the `delta_rps`
computation, and the `prev_sets.get(...).unwrap()` indexing — are modelled
as the `fatal` outcome. -/
def ShortTermRefPicSet.read (st_rps_idx num_short_term_ref_pic_sets : Nat)
    (prev_sets : List ShortTermRefPicSet) (bits : BitList) :
    Except PError (ShortTermRefPicSet × BitList) := do
  let (interPred, bits) ←
    if st_rps_idx = 0 then pure (false, bits) else readBit bits
  if interPred then
    let (deltaIdxMinus1, bits) ←
      if st_rps_idx = num_short_term_ref_pic_sets then readUe bits
      else pure (0, bits)
    let (signB, bits) ← readBit bits
    let (absMinus1, bits) ← readUe bits
    if absMinus1 ≥ 2 ^ 31 then throw PError.fatal
    if st_rps_idx < deltaIdxMinus1 + 1 then throw PError.fatal
    let refIdx := st_rps_idx - (deltaIdxMinus1 + 1)
    if absMinus1 + 1 ≥ 2 ^ 31 then throw PError.fatal
    let deltaRps : Int :=
      (1 - 2 * (if signB then (1 : Int) else 0)) * ((absMinus1 : Int) + 1)
    match prev_sets.get? refIdx with
    | none => throw PError.fatal
    | some refRps => do
      let ((usedByCurrPic, useDelta), bits) ←
        readFlagPairs (refRps.num_delta_pocs + 1) bits
      let s0 ← ShortTermRefPicSet.deriveNegativePicsS0 refRps deltaRps
        usedByCurrPic useDelta
      let s1 ← ShortTermRefPicSet.derivePositivePicsS1 refRps deltaRps
        usedByCurrPic useDelta
      pure ({ negative_pics_s0 := s0, positive_pics_s1 := s1 }, bits)
  else
    let (numNeg, bits) ← readUe bits
    let (numPos, bits) ← readUe bits
    let (negs, bits) ← readN readDeltaPocPair numNeg bits
    let (poss, bits) ← readN readDeltaPocPair numPos bits
    pure ({ negative_pics_s0 := negs, positive_pics_s1 := poss }, bits)

/-- The `for i in 0..num` loop of `ShortTermRefPicSet::read_with_count`,
passing the already-parsed sets to each subsequent parse. -/
def readSetsAux (num : Nat) : Nat → List ShortTermRefPicSet → BitList →
    Except PError (List ShortTermRefPicSet × BitList)
  | 0, sets, bits => .ok (sets, bits)
  | k + 1, sets, bits =>
    match ShortTermRefPicSet.read sets.length num sets bits with
    | .error e => .error e
    | .ok (s, bits2) => readSetsAux num k (sets ++ [s]) bits2

/-- `ShortTermRefPicSet::read_with_count`. -/
def ShortTermRefPicSet.read_with_count (bits : BitList) :
    Except PError (List ShortTermRefPicSet × BitList) := do
  let (num, bits) ← readUe bits
  readSetsAux num num [] bits

/-- `LongTermRefPicSps` from `src/nal/sps.rs` (contents not stored). -/
structure LongTermRefPicSps where
  deriving DecidableEq, Repr

/-- `LongTermRefPicSps::read_one` (note: the source reads the
`used_by_curr_pic_lt_sps_flag` with `read_ue`, faithfully kept). -/
def LongTermRefPicSps.read_one (bits : BitList) :
    Except PError (LongTermRefPicSps × BitList) := do
  let (_lsb, bits) ← readUe bits
  let (_used, bits) ← readUe bits
  pure (LongTermRefPicSps.mk, bits)

/-- `LongTermRefPicSps::read`. -/
def LongTermRefPicSps.read (bits : BitList) :
    Except PError (Option (List LongTermRefPicSps) × BitList) := do
  let (present, bits) ← readBit bits
  if present then
    let (num, bits) ← readUe bits
    let (refs, bits) ← readN LongTermRefPicSps.read_one num bits
    pure (some refs, bits)
  else
    pure (none, bits)

/-- `VuiParameters` from `src/nal/sps.rs`. -/
structure VuiParameters where
  aspect_ratio_info : Option AspectRatioInfo
  overscan_appropriate : OverscanAppropriate
  video_signal_type : Option VideoSignalType
  chroma_loc_info : Option ChromaLocInfo
  neutral_chroma_indication_flag : Bool
  field_seq_flag : Bool
  frame_field_info_present_flag : Bool
  default_display_window : Option Window
  timing_info : Option TimingInfo
  bitstream_restrictions : Option BitstreamRestrictions
  deriving DecidableEq, Repr

/-- `VuiParameters::read_one`. -/
def VuiParameters.read_one (hrd_common_inf_present : Bool)
    (max_sub_layers_minus1 : Nat) (bits : BitList) :
    Except PError (VuiParameters × BitList) := do
  let (aspect, bits) ← AspectRatioInfo.read bits
  let (overscan, bits) ← OverscanAppropriate.read bits
  let (video_signal, bits) ← VideoSignalType.read bits
  let (chroma_loc, bits) ← ChromaLocInfo.read bits
  let (neutral, bits) ← readBit bits
  let (field_seq, bits) ← readBit bits
  let (frame_field, bits) ← readBit bits
  let (window, bits) ← Window.read bits
  let (timing, bits) ← TimingInfo.read hrd_common_inf_present
    max_sub_layers_minus1 bits
  let (restr, bits) ← BitstreamRestrictions.read bits
  pure ({ aspect_ratio_info := aspect, overscan_appropriate := overscan,
          video_signal_type := video_signal, chroma_loc_info := chroma_loc,
          neutral_chroma_indication_flag := neutral,
          field_seq_flag := field_seq,
          frame_field_info_present_flag := frame_field,
          default_display_window := window, timing_info := timing,
          bitstream_restrictions := restr }, bits)

/-- `VuiParameters::read`. -/
def VuiParameters.read (hrd_common_inf_present : Bool)
    (max_sub_layers_minus1 : Nat) (bits : BitList) :
    Except PError (Option VuiParameters × BitList) := do
  let (present, bits) ← readBit bits
  if present then
    let (v, bits) ← VuiParameters.read_one hrd_common_inf_present
      max_sub_layers_minus1 bits
    pure (some v, bits)
  else
    pure (none, bits)

/-- The `while has_more_rbsp_data { read_bool }` loop of
`SpsExtension::read`. -/
def skipExtensionData (bits : BitList) : BitList :=
  if hasMoreRbspData bits then skipExtensionData bits.tail else bits
termination_by bits.length
decreasing_by
  cases bits with
  | nil => simp [hasMoreRbspData] at *
  | cons b rest => simp [List.tail]

/-- `SpsExtension` from `src/nal/sps.rs` (contents not stored; all four
known extensions are rejected as unimplemented). -/
structure SpsExtension where
  deriving DecidableEq, Repr

/-- `SpsExtension::read`. -/
def SpsExtension.read (bits : BitList) :
    Except PError (Option SpsExtension × BitList) := do
  let (present, bits) ← readBit bits
  if present then
    let (range_flag, bits) ← readBit bits
    let (multilayer_flag, bits) ← readBit bits
    let (threed_flag, bits) ← readBit bits
    let (scc_flag, bits) ← readBit bits
    let (ext4, bits) ← readU 4 bits
    if range_flag then throw (.err (.unimplemented .sps_range_extension))
    if multilayer_flag then throw (.err (.unimplemented .sps_multilayer_extension))
    if threed_flag then throw (.err (.unimplemented .sps_3d_extension))
    if scc_flag then throw (.err (.unimplemented .sps_scc_extension))
    let bits := if ext4 ≠ 0 then skipExtensionData bits else bits
    pure (some SpsExtension.mk, bits)
  else
    pure (none, bits)

/-- `SeqParameterSet` from `src/nal/sps.rs`. -/
structure SeqParameterSet where
  sps_video_parameter_set_id : ParamSetId 15
  sps_max_sub_layers_minus1 : Nat
  sps_temporal_id_nesting : Bool
  profile_tier_level : ProfileTierLevel
  sps_seq_parameter_set_id : ParamSetId 15
  chroma_info : ChromaInfo
  pic_width_in_luma_samples : Nat
  pic_height_in_luma_samples : Nat
  conformance_window : Option Window
  bit_depth_luma_minus8 : Nat
  bit_depth_chroma_minus8 : Nat
  log2_max_pic_order_cnt_lsb_minus4 : Nat
  sub_layering_ordering_info : List LayerInfo
  log2_min_luma_coding_block_size_minus3 : Nat
  log2_diff_max_min_luma_coding_block_size : Nat
  log2_min_luma_transform_block_size_minus2 : Nat
  log2_diff_max_min_luma_transform_block_size : Nat
  max_transform_hierarchy_depth_inter : Nat
  max_transform_hierarchy_depth_intra : Nat
  scaling_list : Option ScalingList
  amp_enabled : Bool
  sample_adaptive_offset_enabled : Bool
  pcm : Option Pcm
  st_ref_pic_sets : List ShortTermRefPicSet
  long_term_ref_pics_sps : Option (List LongTermRefPicSps)
  sps_termporal_mvp_enabled : Bool
  strong_intra_smoothing_enabled : Bool
  vui_parameters : Option VuiParameters
  sps_extension : Option SpsExtension
  deriving DecidableEq, Repr

instance : Inhabited SeqParameterSet :=
  ⟨⟨default, 0, false, default, default, default, 0, 0, none, 0, 0, 0, [],
    0, 0, 0, 0, 0, 0, none, false, false, none, [], none, false, false,
    none, none⟩⟩

/-- `SeqParameterSet::from_bits`: the top-level parse, reading every field
in bitstream order and validating the RBSP trailing bits at the end. -/
def SeqParameterSet.from_bits (bits : BitList) : Except PError SeqParameterSet := do
  let (vps_id_raw, bits) ← readU 4 bits
  let (max_sub_layers, bits) ← readU 3 bits
  let vps_id ←
    match ParamSetId.from_u32 15 vps_id_raw with
    | .error e => throw (.err (.badVideoParamSetId e))
    | .ok v => pure v
  let (nesting, bits) ← readBit bits
  let (ptl, bits) ← ProfileTierLevel.read true max_sub_layers bits
  let (sps_id_raw, bits) ← readUe bits
  let sps_id ←
    match ParamSetId.from_u32 15 sps_id_raw with
    | .error e => throw (.err (.badSeqParamSetId e))
    | .ok v => pure v
  let (chroma, bits) ← ChromaInfo.read bits
  let (width, bits) ← readUe bits
  let (height, bits) ← readUe bits
  let (window, bits) ← Window.read bits
  let (depth_luma, bits) ← readUe bits
  let (depth_chroma, bits) ← readUe bits
  let (log2_max_poc, bits) ← readUe bits
  let (layer_info, bits) ← LayerInfo.read max_sub_layers bits
  let (log2_min_cb, bits) ← readUe bits
  let (log2_diff_cb, bits) ← readUe bits
  let (log2_min_tb, bits) ← readUe bits
  let (log2_diff_tb, bits) ← readUe bits
  let (hier_inter, bits) ← readUe bits
  let (hier_intra, bits) ← readUe bits
  let (scaling, bits) ← ScalingList.read bits
  let (amp, bits) ← readBit bits
  let (sao, bits) ← readBit bits
  let (pcm, bits) ← Pcm.read bits
  let (st_sets, bits) ← ShortTermRefPicSet.read_with_count bits
  let (long_term, bits) ← LongTermRefPicSps.read bits
  let (mvp, bits) ← readBit bits
  let (strong_intra, bits) ← readBit bits
  let (vui, bits) ← VuiParameters.read true max_sub_layers bits
  let (ext, bits) ← SpsExtension.read bits
  finishRbsp bits
  pure { sps_video_parameter_set_id := vps_id,
         sps_max_sub_layers_minus1 := max_sub_layers,
         sps_temporal_id_nesting := nesting,
         profile_tier_level := ptl,
         sps_seq_parameter_set_id := sps_id,
         chroma_info := chroma,
         pic_width_in_luma_samples := width,
         pic_height_in_luma_samples := height,
         conformance_window := window,
         bit_depth_luma_minus8 := depth_luma,
         bit_depth_chroma_minus8 := depth_chroma,
         log2_max_pic_order_cnt_lsb_minus4 := log2_max_poc,
         sub_layering_ordering_info := layer_info,
         log2_min_luma_coding_block_size_minus3 := log2_min_cb,
         log2_diff_max_min_luma_coding_block_size := log2_diff_cb,
         log2_min_luma_transform_block_size_minus2 := log2_min_tb,
         log2_diff_max_min_luma_transform_block_size := log2_diff_tb,
         max_transform_hierarchy_depth_inter := hier_inter,
         max_transform_hierarchy_depth_intra := hier_intra,
         scaling_list := scaling,
         amp_enabled := amp,
         sample_adaptive_offset_enabled := sao,
         pcm := pcm,
         st_ref_pic_sets := st_sets,
         long_term_ref_pics_sps := long_term,
         sps_termporal_mvp_enabled := mvp,
         strong_intra_smoothing_enabled := strong_intra,
         vui_parameters := vui,
         sps_extension := ext }

/-- `SeqParameterSet::general_layer_profile`: the source unwraps with
`expect("SPS always has general profile")`; the `Option` result models that
panic as `none`. -/
def SeqParameterSet.general_layer_profile (sps : SeqParameterSet) :
    Option LayerProfile :=
  sps.profile_tier_level.general_profile

/-- `SeqParameterSet::general_tier` (through the same unwrap). -/
def SeqParameterSet.general_tier (sps : SeqParameterSet) : Option Tier :=
  sps.general_layer_profile.map LayerProfile.tier

/-- `SeqParameterSet::general_profile` (through the same unwrap). -/
def SeqParameterSet.general_profile (sps : SeqParameterSet) : Option Profile :=
  sps.general_layer_profile.map LayerProfile.profile

/-- `u32::checked_mul`. -/
def checkedMul (a b : Nat) : Option Nat :=
  if a * b < 2 ^ 32 then some (a * b) else none

/-- `u32::checked_sub`. -/
def checkedSub (a b : Nat) : Option Nat :=
  if b ≤ a then some (a - b) else none

/-- One checked cropping step of `SeqParameterSet::pixel_dimensions`: scale
the window offset by the subsampling factor with `checked_mul`, subtract it
from the running dimension with `checked_sub`, and surface
`FieldValueTooLarge` (carrying the offset) when either step fails. -/
def applyOffset (value offset factor : Nat) (name : FieldName) :
    Except SpsError Nat :=
  match (checkedMul offset factor).bind (checkedSub value) with
  | some v => pure v
  | none => throw (.fieldValueTooLarge name offset)

/-- `SeqParameterSet::pixel_dimensions`: apply the conformance window to the
raw luma dimensions with the chroma-format subsampling factors, every step
checked. -/
def SeqParameterSet.pixel_dimensions (sps : SeqParameterSet) :
    Except SpsError (Nat × Nat) := do
  let win := sps.conformance_window.getD default
  let (sub_width_c, sub_height_c) ←
    match sps.chroma_info.chroma_format with
    | .Monochrome => pure ((1 : Nat), (1 : Nat))
    | .YUV420 => pure (2, 2)
    | .YUV422 => pure (2, 1)
    | .YUV444 => pure (1, 1)
    | .Invalid idc => throw (.fieldValueTooLarge .chroma_format_idc idc)
  let width := sps.pic_width_in_luma_samples
  let width ← applyOffset width win.win_left_offset sub_width_c .win_left_offset
  let width ← applyOffset width win.win_right_offset sub_width_c .win_right_offset
  let height := sps.pic_height_in_luma_samples
  let height ← applyOffset height win.win_top_offset sub_height_c .win_top_offset
  let height ← applyOffset height win.win_bottom_offset sub_height_c .win_bottom_offset
  pure (width, height)

/-! ### Helper lemmas -/

theorem exceptBind_eq_ok {ε α β : Type} {x : Except ε α} {f : α → Except ε β} {b : β} :
    (x >>= f) = .ok b ↔ ∃ a, x = .ok a ∧ f a = .ok b := by
  cases x with
  | error e => simp [Bind.bind, Except.bind]
  | ok a => simp [Bind.bind, Except.bind]

theorem readBit_ne_fatal (bits : BitList) : readBit bits ≠ .error PError.fatal := by
  cases bits <;> simp [readBit, outOfBits]

theorem readU_ne_fatal (n : Nat) (bits : BitList) : readU n bits ≠ .error PError.fatal := by
  unfold readU
  split <;> simp [outOfBits]

theorem readU_lt (n : Nat) (bits : BitList) (v : Nat) (rest : BitList)
    (h : readU n bits = .ok (v, rest)) : v < 2 ^ n := by
  unfold readU at h
  split at h
  · have hv : v = bitsToNat (bits.take n) := by
      have := h
      simp only [Except.ok.injEq, Prod.mk.injEq] at this
      omega
    have hlen : (bits.take n).length ≤ n := by simp
    have hgen : ∀ l : BitList, bitsToNat l < 2 ^ l.length := by
      intro l
      induction l using List.reverseRecOn with
      | nil => simp [bitsToNat]
      | append_singleton xs x ih =>
        have : bitsToNat (xs ++ [x]) = 2 * bitsToNat xs + (if x then 1 else 0) := by
          simp [bitsToNat]
        rw [this]
        have hx : (if x then 1 else 0) ≤ 1 := by split <;> omega
        simp only [List.length_append, List.length_singleton, pow_succ]
        omega
    calc v = bitsToNat (bits.take n) := hv
      _ < 2 ^ (bits.take n).length := hgen _
      _ ≤ 2 ^ n := Nat.pow_le_pow_right (by omega) hlen
  · cases h

theorem colourDescription_read_ne_fatal (bits : BitList) :
    ColourDescription.read bits ≠ .error PError.fatal := by
  unfold ColourDescription.read
  intro h
  simp only [bind, Except.bind] at h
  cases hb : readBit bits with
  | error e =>
    rw [hb] at h
    exact readBit_ne_fatal bits (hb.trans (by injection h with h; rw [h]))
  | ok v =>
    rw [hb] at h
    obtain ⟨flag, bits1⟩ := v
    by_cases hf : flag = true
    · subst hf
      simp only [if_pos rfl] at h
      cases h1 : readU 8 bits1 with
      | error e =>
        rw [h1] at h
        exact readU_ne_fatal 8 bits1 (h1.trans (by injection h with h; rw [h]))
      | ok v1 =>
        rw [h1] at h
        obtain ⟨cp, bits2⟩ := v1
        simp only at h
        cases h2 : readU 8 bits2 with
        | error e =>
          rw [h2] at h
          exact readU_ne_fatal 8 bits2 (h2.trans (by injection h with h; rw [h]))
        | ok v2 =>
          rw [h2] at h
          obtain ⟨tc, bits3⟩ := v2
          simp only at h
          cases h3 : readU 8 bits3 with
          | error e =>
            rw [h3] at h
            exact readU_ne_fatal 8 bits3 (h3.trans (by injection h with h; rw [h]))
          | ok v3 =>
            rw [h3] at h
            obtain ⟨mc, bits4⟩ := v3
            simp [pure, Except.pure] at h
    · simp only [if_neg hf] at h
      simp [pure, Except.pure] at h

theorem scanPush_ok (step : Nat → Except PError (Option ShortTermRef))
    (f : Nat → Option ShortTermRef) (l : List Nat)
    (hl : ∀ j ∈ l, step j = .ok (f j)) (acc : List ShortTermRef) :
    scanPush step l acc = .ok (acc ++ l.filterMap f) := by
  induction l generalizing acc with
  | nil => simp [scanPush]
  | cons j js ih =>
    have hj := hl j (List.mem_cons_self j js)
    have hrest : ∀ i ∈ js, step i = .ok (f i) :=
      fun i hi => hl i (List.mem_cons_of_mem _ hi)
    simp only [scanPush]
    rw [hj]
    cases hfj : f j with
    | none =>
      show scanPush step js acc = _
      rw [List.filterMap_cons_none hfj]
      exact ih hrest acc
    | some x =>
      show scanPush step js (acc ++ [x]) = _
      rw [List.filterMap_cons_some hfj]
      rw [show acc ++ x :: List.filterMap f js
            = (acc ++ [x]) ++ List.filterMap f js by simp]
      exact ih hrest (acc ++ [x])

theorem getD_replicate_false (n j : Nat) :
    (List.replicate n false).getD j false = false := by
  rcases Nat.lt_or_ge j n with h | h
  · simp [List.getD_eq_getElem?_getD, List.getElem?_replicate, h]
  · have : (List.replicate n false).length ≤ j := by simpa using h
    simp [List.getD_eq_getElem?_getD, List.getElem?_eq_none this]

theorem readBit_length (bits : BitList) (b : Bool) (rest : BitList)
    (h : readBit bits = .ok (b, rest)) : bits.length = rest.length + 1 := by
  cases bits with
  | nil => cases h
  | cons x xs =>
    simp only [readBit, Except.ok.injEq, Prod.mk.injEq] at h
    obtain ⟨_, h⟩ := h
    subst h
    simp

theorem readFlagPairs_spec :
    ∀ (n : Nat) (bits : BitList) (used ud : List Bool) (rest : BitList),
      readFlagPairs n bits = .ok ((used, ud), rest) →
      used.length = n ∧ ud.length = n ∧
      bits.length = (n + used.count true) + rest.length ∧
      (∀ j, used.getD j true = false → ud.getD j false = true) := by
  intro n
  induction n with
  | zero =>
    intro bits used ud rest h
    simp only [readFlagPairs, Except.ok.injEq, Prod.mk.injEq] at h
    obtain ⟨⟨hu, hd⟩, hr⟩ := h
    subst hu; subst hd; subst hr
    refine ⟨rfl, rfl, by simp, ?_⟩
    intro j hj
    simp [List.getD] at hj
  | succ n ih =>
    intro bits used ud rest h
    unfold readFlagPairs at h
    cases h1 : readBit bits with
    | error e => rw [h1] at h; cases h
    | ok v1 =>
      rw [h1] at h
      obtain ⟨usedHd, bits2⟩ := v1
      simp only at h
      cases h2 : (if usedHd = true then readBit bits2 else Except.ok (true, bits2)) with
      | error e => rw [h2] at h; cases h
      | ok v2 =>
        rw [h2] at h
        obtain ⟨udHd, bits3⟩ := v2
        simp only at h
        cases h3 : readFlagPairs n bits3 with
        | error e => rw [h3] at h; cases h
        | ok v3 =>
          rw [h3] at h
          obtain ⟨⟨us, uds⟩, bits4⟩ := v3
          simp only [Except.ok.injEq, Prod.mk.injEq] at h
          obtain ⟨⟨hu, hd⟩, hr⟩ := h
          subst hu; subst hd; subst hr
          obtain ⟨ihl, ihdl, ihc, ihp⟩ := ih bits3 us uds bits4 h3
          have hb1 : bits.length = bits2.length + 1 := readBit_length bits usedHd bits2 h1
          have hb2 : bits2.length = (if usedHd = true then 1 else 0) + bits3.length := by
            by_cases hcase : usedHd = true
            · rw [if_pos hcase]
              rw [if_pos hcase] at h2
              have := readBit_length bits2 udHd bits3 h2
              omega
            · rw [if_neg hcase]
              rw [if_neg hcase] at h2
              simp only [Except.ok.injEq, Prod.mk.injEq] at h2
              obtain ⟨_, h2⟩ := h2
              subst h2
              omega
          refine ⟨by simp [ihl], by simp [ihdl], ?_, ?_⟩
          · have hcount : (usedHd :: us).count true
                = us.count true + (if usedHd = true then 1 else 0) := by
              by_cases hcase : usedHd = true <;> simp [hcase, List.count_cons]
            rw [hcount, hb1, hb2, ihc]
            omega
          · intro j hj
            cases j with
            | zero =>
              simp only [List.getD, List.getElem?_cons_zero, Option.getD_some] at hj ⊢
              subst hj
              rw [if_neg (by simp)] at h2
              simp only [Except.ok.injEq, Prod.mk.injEq] at h2
              obtain ⟨h2, _⟩ := h2
              exact h2.symm
            | succ j =>
              simp only [List.getD, List.getElem?_cons_succ] at hj ⊢
              exact ihp j hj

/-- The RBSP payload of the repository's own 720x576 SPS test vector
(the "Intinor HW encode" sample of the source test suite), after
emulation-prevention removal, as a bit list. -/
def spsExampleBits : BitList := [
  false, false, false, false, false, false, false, true, false, false, false,
  false, false, false, false, true, false, true, true, false, false, false,
  false, false, false, false, false, false, false, false, false, false,
  false, false, false, false, false, false, false, false, false, false,
  false, false, false, false, false, false, true, false, true, true, false,
  false, false, false, false, false, false, false, false, false, false,
  false, false, false, false, false, false, false, false, false, false,
  false, false, false, false, false, false, false, false, false, false,
  false, false, false, false, false, false, false, false, false, false,
  false, false, false, false, true, false, true, true, true, false, true,
  true, false, true, false, false, false, false, false, false, false, false,
  false, false, true, false, true, true, true, false, false, false, false,
  true, false, false, false, false, false, false, false, false, false, true,
  false, false, true, false, false, false, false, false, true, true, true,
  false, false, false, true, false, false, true, true, true, true, true,
  false, true, false, false, false, false, true, true, true, true, true,
  true, false, true, true, true, false, false, true, false, false, false,
  true, true, false, true, true, false, true, false, false, false, true,
  false, false, true, false, true, true, true, false, false, false, true,
  true, true, true, true, true, true, true, true, true, false, false, false,
  false, false, false, false, false, false, true, false, false, false, false,
  false, false, false, false, false, false, false, false, false, false,
  false, false, true, false, true, true, false, true, false, false, false,
  false, false, false, false, true, false, false, false, false, false, false,
  false, false, false, false, false, false, false, false, false, false,
  false, false, false, false, false, false, false, false, false, false,
  false, false, false, false, false, true, false, false, false, false, false,
  false, false, false, false, false, false, false, false, false, false,
  false, false, false, false, false, false, false, false, false, false,
  false, false, true, true, false, false, true, false, true, true, false,
  false, false, false, false, false, false, false, false, false, false,
  false, false, false, false, false, false, false, false, false, false,
  false, false, false, false, true, true, true, false, false, false, false,
  false, false, false, false, false, false, false, false, false, false, true,
  false, false, true, false, false, true, false, false, true, true, true,
  true, true, false, false, false, false, false, false, false, false, false,
  false, false, false, false, true, false, true, true, true, false, true,
  true, true, false, false, false, false, true, false, false, true, false,
  false, false
]

/-- The parse result of `spsExampleBits` (a successful parse; the
default is never used). -/
def spsExample : SeqParameterSet :=
  match SeqParameterSet.from_bits spsExampleBits with
  | .ok s => s
  | .error _ => default

/-! ### Claim theorems -/

/-- Claim C6 (counterexample): as stated over every namespace maximum MAX,
the claim fails — `from_u32` stores `id as u8`, so for `MAX = 256` the value
`id = 256` is accepted (256 ≤ MAX) but the constructed identifier exposes
`0`, not the value it was created from. -/
theorem c6_counterexample :
    ParamSetId.from_u32 256 256 = Except.ok (⟨0⟩ : ParamSetId 256) ∧
    ParamSetId.id (⟨0⟩ : ParamSetId 256) = 0 ∧ (0 : Nat) ≠ 256 := by
  refine ⟨?_, rfl, by decide⟩
  rfl

/-- Claim C6 (amended): for `u32` inputs, construction succeeds iff
`id ≤ MAX` (boundary inclusive), fails with `IdTooLarge` carrying the
offending value for `id > MAX`, and a successfully constructed identifier
exposes the created value reduced modulo `2^8` — which is exactly the
created value whenever `MAX < 256`, as for both namespaces the parser
instantiates (15 and 63). -/
theorem c6_bounded_id (MAX id : Nat) (hM : MAX < 2 ^ 32) (hi : id < 2 ^ 32) :
    ((∃ p, ParamSetId.from_u32 MAX id = .ok p) ↔ id ≤ MAX) ∧
    (MAX < id → ParamSetId.from_u32 MAX id = .error (.idTooLarge id)) ∧
    (∀ p, ParamSetId.from_u32 MAX id = .ok p → p.id = id % 256) ∧
    (MAX < 256 → id ≤ MAX → ParamSetId.from_u32 MAX id = .ok ⟨id⟩) := by
  unfold ParamSetId.from_u32 ParamSetId.id
  refine ⟨?_, ?_, ?_, ?_⟩
  · constructor
    · rintro ⟨p, hp⟩
      by_contra hgt
      rw [if_pos (by omega)] at hp
      cases hp
    · intro hle
      exact ⟨⟨id % 256⟩, by rw [if_neg (by omega)]⟩
  · intro hlt
    rw [if_pos hlt]
  · intro p hp
    by_cases hgt : id > MAX
    · rw [if_pos hgt] at hp; cases hp
    · rw [if_neg hgt] at hp
      injection hp with hp
      rw [← hp]
  · intro hM256 hle
    rw [if_neg (by omega)]
    congr 1
    have : id < 256 := by omega
    simp [Nat.mod_eq_of_lt this]

/-- Claim C6 witness: the boundary case `id = MAX` for the sequence
parameter set namespace (`MAX = 15`). -/
theorem c6_witness : ParamSetId.from_u32 15 15 = Except.ok (⟨15⟩ : ParamSetId 15) :=
  (c6_bounded_id 15 15 (by norm_num) (by norm_num)).2.2.2 (by norm_num) (by norm_num)

theorem except_bind_ok {ε α β : Type} (a : α) (f : α → Except ε β) :
    (Except.ok a >>= f : Except ε β) = f a := rfl

theorem except_bind_error {ε α β : Type} (e : ε) (f : α → Except ε β) :
    ((Except.error e : Except ε α) >>= f) = Except.error e := rfl

theorem except_pure_eq {ε α : Type} (a : α) : (pure a : Except ε α) = Except.ok a := rfl

theorem except_throw_eq {ε α : Type} (e : ε) : (throw e : Except ε α) = Except.error e := rfl

theorem readBit_cons (b : Bool) (rest : BitList) :
    readBit (b :: rest) = .ok (b, rest) := rfl

/-- Claim C5: in the inter-prediction path, a reference index that does not
denote an already-parsed earlier set is fatal — the parse aborts with the
panic outcome (the source's unchecked `prev_sets.get(..).unwrap()`), not
with a typed `SpsError`. Stated for any prediction-flagged input whose sign
and magnitude fields parse, whenever the resulting `ref_rps_idx` falls
outside `prev_sets`. -/
theorem c5_out_of_range_ref_idx_fatal
    (idx num : Nat) (prev : List ShortTermRefPicSet)
    (rest r2 r3 : BitList) (sign : Bool) (abs : Nat)
    (hidx : idx ≠ 0) (hnum : idx ≠ num)
    (h2 : readBit rest = .ok (sign, r2))
    (h3 : readUe r2 = .ok (abs, r3))
    (habs : abs < 2 ^ 31)
    (hoob : prev.length ≤ idx - 1) :
    ShortTermRefPicSet.read idx num prev (true :: rest) = .error PError.fatal := by
  unfold ShortTermRefPicSet.read
  rw [if_neg hidx]
  simp only [readBit_cons, except_bind_ok]
  simp only [eq_self_iff_true, if_true]
  rw [if_neg hnum]
  simp only [except_pure_eq, except_bind_ok]
  rw [h2]
  simp only [except_bind_ok]
  rw [h3]
  simp only [except_bind_ok]
  rw [if_neg (by omega : ¬ abs ≥ 2 ^ 31)]
  rw [if_neg (by omega : ¬ idx < 0 + 1)]
  rw [List.get?_eq_none.mpr (by omega : prev.length ≤ idx - (0 + 1))]
  by_cases habs1 : abs + 1 ≥ 2 ^ 31
  · rw [if_pos habs1]
    rfl
  · rw [if_neg habs1]
    rfl

/-- Claim C5 witness: a concrete two-set stream position — set index 1 with
an empty list of previously parsed sets — hits the fatal outcome. -/
theorem c5_witness :
    ShortTermRefPicSet.read 1 5 [] [true, false, true] = .error PError.fatal :=
  c5_out_of_range_ref_idx_fatal 1 5 [] [false, true] [true] [] false 0
    (by decide) (by decide) (by rfl) (by rfl) (by norm_num) (by simp)

/-- Claim C7: the inter-prediction flag loop over a referenced set `rset`
reads exactly `num_delta_pocs(rset) + 1` `used_by_curr_pic_flag` entries
(one more iteration than the referenced set's total entry count), consumes
one bit per iteration plus one extra bit exactly for each flag that is set
(`use_delta_flag` is read only conditionally), and whenever
`used_by_curr_pic_flag[j]` is false, `use_delta_flag[j]` is `true` without
any bit having been consumed for it. -/
theorem c7_flag_loop (rset : ShortTermRefPicSet) (bits : BitList)
    (used ud : List Bool) (rest : BitList)
    (h : readFlagPairs (rset.num_delta_pocs + 1) bits = .ok ((used, ud), rest)) :
    used.length = rset.num_delta_pocs + 1 ∧
    ud.length = rset.num_delta_pocs + 1 ∧
    bits.length = ((rset.num_delta_pocs + 1) + used.count true) + rest.length ∧
    (∀ j, used.getD j true = false → ud.getD j false = true) :=
  readFlagPairs_spec (rset.num_delta_pocs + 1) bits used ud rest h

/-- Claim C7 witness: over an empty referenced set, the single-bit input
`[false]` parses one flag pair — the used flag is false and `use_delta`
defaults to true with no bit consumed. -/
theorem c7_witness :
    readFlagPairs ((⟨[], []⟩ : ShortTermRefPicSet).num_delta_pocs + 1) [false]
      = Except.ok (([false], [true]), ([] : BitList)) ∧
    ([false] : List Bool).length
      = (⟨[], []⟩ : ShortTermRefPicSet).num_delta_pocs + 1 := by
  refine ⟨rfl, ?_⟩
  exact (c7_flag_loop ⟨[], []⟩ [false] [false] [true] [] rfl).1

/-- Claim C10: the panic branch of `VideoFormat::from` is unreachable from
parsing — every value below 8 maps to a variant, and `VideoSignalType::read`
(which obtains the value from a 3-bit read) can never produce the panic
outcome on any input. -/
theorem c10_video_format_total :
    (∀ n, n < 8 → (VideoFormat.fromNat n).isSome = true) ∧
    (∀ bits, VideoSignalType.read bits ≠ .error PError.fatal) := by
  constructor
  · intro n h
    interval_cases n <;> rfl
  · intro bits hcontra
    unfold VideoSignalType.read at hcontra
    cases h1 : readBit bits with
    | error e =>
      rw [h1] at hcontra
      simp only [if_true, except_bind_error, Except.error.injEq] at hcontra
      subst hcontra
      exact readBit_ne_fatal bits h1
    | ok v1 =>
      rw [h1] at hcontra
      simp only [except_bind_ok] at hcontra
      obtain ⟨present, bits1⟩ := v1
      by_cases hp : present = true
      · subst hp
        simp only [if_pos rfl] at hcontra
        cases h2 : readU 3 bits1 with
        | error e =>
          rw [h2] at hcontra
          simp only [if_true, except_bind_error, Except.error.injEq] at hcontra
          subst hcontra
          exact readU_ne_fatal 3 bits1 h2
        | ok v2 =>
          rw [h2] at hcontra
          simp only [except_bind_ok] at hcontra
          obtain ⟨vfRaw, bits2⟩ := v2
          simp only at hcontra
          have hlt : vfRaw < 8 := by
            have := readU_lt 3 bits1 vfRaw bits2 h2
            norm_num at this
            exact this
          have hsome : (VideoFormat.fromNat vfRaw).isSome = true := by
            interval_cases vfRaw <;> rfl
          cases hvf : VideoFormat.fromNat vfRaw with
          | none => rw [hvf] at hsome; cases hsome
          | some vf =>
            rw [hvf] at hcontra
            simp only at hcontra
            cases h3 : readBit bits2 with
            | error e =>
              rw [h3] at hcontra
              simp only [if_true, except_bind_error, Except.error.injEq] at hcontra
              subst hcontra
              exact readBit_ne_fatal bits2 h3
            | ok v3 =>
              rw [h3] at hcontra
              simp only [except_bind_ok] at hcontra
              obtain ⟨fr, bits3⟩ := v3
              simp only at hcontra
              cases h4 : ColourDescription.read bits3 with
              | error e =>
                rw [h4] at hcontra
                simp only [if_true, except_bind_error, Except.error.injEq] at hcontra
                subst hcontra
                exact colourDescription_read_ne_fatal bits3 h4
              | ok v4 =>
                rw [h4] at hcontra
                simp only [except_bind_ok] at hcontra
                obtain ⟨cd, bits4⟩ := v4
                simp [pure, Except.pure] at hcontra
      · simp only [Bool.not_eq_true] at hp
        subst hp
        simp only [Bool.false_eq_true, if_false] at hcontra
        simp [pure, Except.pure] at hcontra

/-- Claim C10 witness: the highest 3-bit value, 7, maps to a variant. -/
theorem c10_witness : (VideoFormat.fromNat 7).isSome = true :=
  c10_video_format_total.1 7 (by norm_num)

/-- Claim C8: SPS parsing is deterministic — two runs of `from_bits` over
the same buffer return the same result; in particular two successful parses
are structurally equal. -/
theorem c8_from_bits_deterministic (bits : BitList) (sps1 sps2 : SeqParameterSet)
    (h1 : SeqParameterSet.from_bits bits = .ok sps1)
    (h2 : SeqParameterSet.from_bits bits = .ok sps2) : sps1 = sps2 := by
  rw [h1] at h2
  injection h2

/-- Claim C8 witness: the repository's real 720x576 SPS payload parses (to
`spsExample`), and re-parsing yields the structurally equal result. -/
theorem c8_witness :
    SeqParameterSet.from_bits spsExampleBits = Except.ok spsExample ∧
    spsExample = spsExample :=
  ⟨rfl, c8_from_bits_deterministic spsExampleBits spsExample spsExample rfl rfl⟩

theorem applyOffset_spec (value offset factor : Nat) (name : FieldName) :
    (offset * factor < 2 ^ 32 ∧ offset * factor ≤ value →
      applyOffset value offset factor name = .ok (value - offset * factor)) ∧
    (¬ (offset * factor < 2 ^ 32 ∧ offset * factor ≤ value) →
      applyOffset value offset factor name
        = .error (.fieldValueTooLarge name offset)) := by
  unfold applyOffset checkedMul checkedSub
  constructor
  · rintro ⟨h1, h2⟩
    rw [if_pos h1]
    simp only [Option.some_bind]
    rw [if_pos h2]
    rfl
  · intro hne
    by_cases h1 : offset * factor < 2 ^ 32
    · rw [if_pos h1]
      simp only [Option.some_bind]
      rw [if_neg (by omega : ¬ offset * factor ≤ value)]
      rfl
    · rw [if_neg h1]
      rfl

/-- The subsampling factors exactly as the claim states them: (2,2) for
4:2:0, (2,1) for 4:2:2, (1,1) for 4:4:4 and monochrome; no factors for the
reserved/invalid chroma formats. -/
def chromaSubsampling : ChromaFormat → Option (Nat × Nat)
  | .Monochrome => some (1, 1)
  | .YUV420 => some (2, 2)
  | .YUV422 => some (2, 1)
  | .YUV444 => some (1, 1)
  | .Invalid _ => none

/-- Recognizer for the `FieldValueTooLarge` failure of `pixel_dimensions`. -/
def isFieldValueTooLargeErr : Except SpsError (Nat × Nat) → Bool
  | .error (.fieldValueTooLarge _ _) => true
  | _ => false

/-- The two-axis cropping chain of `pixel_dimensions` once the subsampling
factors are selected. -/
def cropChain (w h l r t b fw fh : Nat) : Except SpsError (Nat × Nat) := do
  let width ← applyOffset w l fw .win_left_offset
  let width ← applyOffset width r fw .win_right_offset
  let height ← applyOffset h t fh .win_top_offset
  let height ← applyOffset height b fh .win_bottom_offset
  pure (width, height)

theorem espBind_ok {α β : Type} (a : α) (f : α → Except SpsError β) :
    (Except.ok a >>= f : Except SpsError β) = f a := rfl

theorem cropChain_spec (w h l r t b fw fh : Nat) :
    ((l * fw < 2 ^ 32 ∧ r * fw < 2 ^ 32 ∧ l * fw + r * fw ≤ w ∧
      t * fh < 2 ^ 32 ∧ b * fh < 2 ^ 32 ∧ t * fh + b * fh ≤ h) →
      cropChain w h l r t b fw fh = .ok (w - (l + r) * fw, h - (t + b) * fh)) ∧
    (¬ (l * fw < 2 ^ 32 ∧ r * fw < 2 ^ 32 ∧ l * fw + r * fw ≤ w ∧
        t * fh < 2 ^ 32 ∧ b * fh < 2 ^ 32 ∧ t * fh + b * fh ≤ h) →
      isFieldValueTooLargeErr (cropChain w h l r t b fw fh) = true) := by
  constructor
  · rintro ⟨h1, h2, h3, h4, h5, h6⟩
    unfold cropChain
    rw [(applyOffset_spec w l fw .win_left_offset).1 ⟨h1, by omega⟩]
    rw [espBind_ok]
    rw [(applyOffset_spec (w - l * fw) r fw .win_right_offset).1 ⟨h2, by omega⟩]
    rw [espBind_ok]
    rw [(applyOffset_spec h t fh .win_top_offset).1 ⟨h4, by omega⟩]
    rw [espBind_ok]
    rw [(applyOffset_spec (h - t * fh) b fh .win_bottom_offset).1 ⟨h5, by omega⟩]
    rw [espBind_ok]
    have hx : w - l * fw - r * fw = w - (l + r) * fw := by
      rw [Nat.add_mul]; omega
    have hy : h - t * fh - b * fh = h - (t + b) * fh := by
      rw [Nat.add_mul]; omega
    rw [hx, hy]
    rfl
  · intro hne
    unfold cropChain
    by_cases h1 : l * fw < 2 ^ 32 ∧ l * fw ≤ w
    · rw [(applyOffset_spec w l fw .win_left_offset).1 h1, espBind_ok]
      by_cases h2 : r * fw < 2 ^ 32 ∧ r * fw ≤ w - l * fw
      · rw [(applyOffset_spec (w - l * fw) r fw .win_right_offset).1 h2, espBind_ok]
        by_cases h3 : t * fh < 2 ^ 32 ∧ t * fh ≤ h
        · rw [(applyOffset_spec h t fh .win_top_offset).1 h3, espBind_ok]
          by_cases h4 : b * fh < 2 ^ 32 ∧ b * fh ≤ h - t * fh
          · exfalso
            apply hne
            obtain ⟨h1a, h1b⟩ := h1
            obtain ⟨h2a, h2b⟩ := h2
            obtain ⟨h3a, h3b⟩ := h3
            obtain ⟨h4a, h4b⟩ := h4
            exact ⟨h1a, h2a, by omega, h3a, h4a, by omega⟩
          · rw [(applyOffset_spec (h - t * fh) b fh .win_bottom_offset).2 h4]
            rfl
        · rw [(applyOffset_spec h t fh .win_top_offset).2 h3]
          rfl
      · rw [(applyOffset_spec (w - l * fw) r fw .win_right_offset).2 h2]
        rfl
    · rw [(applyOffset_spec w l fw .win_left_offset).2 h1]
      rfl

theorem pixel_dimensions_eq_cropChain (sps : SeqParameterSet) (fw fh : Nat)
    (hsub : chromaSubsampling sps.chroma_info.chroma_format = some (fw, fh)) :
    sps.pixel_dimensions
      = cropChain sps.pic_width_in_luma_samples sps.pic_height_in_luma_samples
          (sps.conformance_window.getD default).win_left_offset
          (sps.conformance_window.getD default).win_right_offset
          (sps.conformance_window.getD default).win_top_offset
          (sps.conformance_window.getD default).win_bottom_offset fw fh := by
  unfold SeqParameterSet.pixel_dimensions cropChain
  cases hcf : sps.chroma_info.chroma_format with
  | Monochrome =>
    rw [hcf] at hsub
    simp only [chromaSubsampling, Option.some.injEq, Prod.mk.injEq] at hsub
    obtain ⟨hfw, hfh⟩ := hsub
    subst hfw; subst hfh
    rfl
  | YUV420 =>
    rw [hcf] at hsub
    simp only [chromaSubsampling, Option.some.injEq, Prod.mk.injEq] at hsub
    obtain ⟨hfw, hfh⟩ := hsub
    subst hfw; subst hfh
    rfl
  | YUV422 =>
    rw [hcf] at hsub
    simp only [chromaSubsampling, Option.some.injEq, Prod.mk.injEq] at hsub
    obtain ⟨hfw, hfh⟩ := hsub
    subst hfw; subst hfh
    rfl
  | YUV444 =>
    rw [hcf] at hsub
    simp only [chromaSubsampling, Option.some.injEq, Prod.mk.injEq] at hsub
    obtain ⟨hfw, hfh⟩ := hsub
    subst hfw; subst hfh
    rfl
  | Invalid idc =>
    rw [hcf] at hsub
    simp [chromaSubsampling] at hsub

/-- Claim C3: for a parsed SPS whose chroma format has subsampling factors
(2,2) for 4:2:0, (2,1) for 4:2:2 and (1,1) for 4:4:4/monochrome,
`pixel_dimensions` returns the raw luma width minus the scaled
left-plus-right window offsets and the raw height minus the scaled
top-plus-bottom offsets, and fails with `FieldValueTooLarge` — never
silently wrapping — exactly when a scaled offset multiplication overflows
`u32` or the subtraction would underflow (the window crops more than the
frame contains). -/
theorem c3_pixel_dimensions (sps : SeqParameterSet) (fw fh l r t b w h : Nat)
    (hsub : chromaSubsampling sps.chroma_info.chroma_format = some (fw, fh))
    (hwin : sps.conformance_window.getD default = ⟨l, r, t, b⟩)
    (hw : sps.pic_width_in_luma_samples = w)
    (hh : sps.pic_height_in_luma_samples = h) :
    ((l * fw < 2 ^ 32 ∧ r * fw < 2 ^ 32 ∧ l * fw + r * fw ≤ w ∧
      t * fh < 2 ^ 32 ∧ b * fh < 2 ^ 32 ∧ t * fh + b * fh ≤ h) →
      sps.pixel_dimensions = .ok (w - (l + r) * fw, h - (t + b) * fh)) ∧
    (¬ (l * fw < 2 ^ 32 ∧ r * fw < 2 ^ 32 ∧ l * fw + r * fw ≤ w ∧
        t * fh < 2 ^ 32 ∧ b * fh < 2 ^ 32 ∧ t * fh + b * fh ≤ h) →
      isFieldValueTooLargeErr sps.pixel_dimensions = true) := by
  have heq := pixel_dimensions_eq_cropChain sps fw fh hsub
  rw [hwin, hw, hh] at heq
  constructor
  · intro hc
    rw [heq]
    exact (cropChain_spec w h l r t b fw fh).1 hc
  · intro hc
    rw [heq]
    exact (cropChain_spec w h l r t b fw fh).2 hc

/-- A 4:2:0 SPS whose conformance window crops more than the frame holds. -/
def spsCropExample : SeqParameterSet :=
  { (default : SeqParameterSet) with
    chroma_info := ⟨.YUV420, false⟩,
    pic_width_in_luma_samples := 16,
    pic_height_in_luma_samples := 16,
    conformance_window := some ⟨20, 0, 0, 0⟩ }

/-- Claim C3 witness: cropping 40 of 16 luma columns fails with
`FieldValueTooLarge` instead of wrapping. -/
theorem c3_witness : isFieldValueTooLargeErr spsCropExample.pixel_dimensions = true :=
  (c3_pixel_dimensions spsCropExample 2 2 20 0 0 0 16 16 rfl rfl rfl rfl).2
    (by intro hc; omega)

/-- Claim C1: in the inter-prediction path of `ShortTermRefPicSet::read`,
whenever the `i32` shift arithmetic stays in range (otherwise the debug
build panics, modelled as the fatal outcome), the new S0 (negative) list is
exactly three ordered passes — the referenced set's S1 scanned in reverse,
then the `delta_rps` boundary term, then the referenced set's S0 scanned
forward — keeping precisely the entries whose shifted delta (original delta
+ delta_rps) is negative and whose `use_delta` flag is set, in that scan
order; the new S1 (positive) list is the symmetric three passes keeping
positive shifted deltas. -/
theorem c1_rps_reconstruction (refRps : ShortTermRefPicSet) (deltaRps : Int)
    (usedByCurrPic useDelta : List Bool)
    (hS1 : ∀ e ∈ refRps.positive_pics_s1,
      i32InRange (e.delta_poc_minus1 + 1) ∧
      i32InRange (e.delta_poc_minus1 + 1 + deltaRps) ∧
      i32InRange (e.delta_poc_minus1 + 1 + deltaRps - 1))
    (hS0 : ∀ e ∈ refRps.negative_pics_s0,
      i32InRange (e.delta_poc_minus1 + 1) ∧
      i32InRange (e.delta_poc_minus1 + 1 + deltaRps) ∧
      i32InRange (e.delta_poc_minus1 + 1 + deltaRps - 1))
    (hB : i32InRange (deltaRps - 1)) :
    (ShortTermRefPicSet.deriveNegativePicsS0 refRps deltaRps usedByCurrPic useDelta
      = .ok ((((List.range refRps.num_positive_pics).reverse).filterMap fun j =>
          if (refRps.positive_pics_s1.getD j default).delta_poc_minus1 + 1 + deltaRps < 0 ∧
              useDelta.getD (refRps.num_negative_pics + j) false = true then
            some ⟨(refRps.positive_pics_s1.getD j default).delta_poc_minus1 + 1 + deltaRps - 1,
                  usedByCurrPic.getD (refRps.num_negative_pics + j) false⟩
          else none)
        ++ (if deltaRps < 0 ∧ useDelta.getD refRps.num_delta_pocs false = true then
              [⟨deltaRps - 1, usedByCurrPic.getD refRps.num_delta_pocs false⟩]
            else [])
        ++ ((List.range refRps.num_negative_pics).filterMap fun j =>
          if (refRps.negative_pics_s0.getD j default).delta_poc_minus1 + 1 + deltaRps < 0 ∧
              useDelta.getD j false = true then
            some ⟨(refRps.negative_pics_s0.getD j default).delta_poc_minus1 + 1 + deltaRps - 1,
                  usedByCurrPic.getD j false⟩
          else none))) ∧
    (ShortTermRefPicSet.derivePositivePicsS1 refRps deltaRps usedByCurrPic useDelta
      = .ok ((((List.range refRps.num_negative_pics).reverse).filterMap fun j =>
          if (refRps.negative_pics_s0.getD j default).delta_poc_minus1 + 1 + deltaRps > 0 ∧
              useDelta.getD j false = true then
            some ⟨(refRps.negative_pics_s0.getD j default).delta_poc_minus1 + 1 + deltaRps - 1,
                  usedByCurrPic.getD j false⟩
          else none)
        ++ (if deltaRps > 0 ∧ useDelta.getD refRps.num_delta_pocs false = true then
              [⟨deltaRps - 1, usedByCurrPic.getD refRps.num_delta_pocs false⟩]
            else [])
        ++ ((List.range refRps.num_positive_pics).filterMap fun j =>
          if (refRps.positive_pics_s1.getD j default).delta_poc_minus1 + 1 + deltaRps > 0 ∧
              useDelta.getD (refRps.num_negative_pics + j) false = true then
            some ⟨(refRps.positive_pics_s1.getD j default).delta_poc_minus1 + 1 + deltaRps - 1,
                  usedByCurrPic.getD (refRps.num_negative_pics + j) false⟩
          else none))) := by
  have hmemS1 : ∀ j, j < refRps.num_positive_pics →
      refRps.positive_pics_s1.getD j default ∈ refRps.positive_pics_s1 := by
    intro j hj
    have hjl : j < refRps.positive_pics_s1.length := hj
    rw [List.getD_eq_getElem _ _ hjl]
    exact List.getElem_mem hjl
  have hmemS0 : ∀ j, j < refRps.num_negative_pics →
      refRps.negative_pics_s0.getD j default ∈ refRps.negative_pics_s0 := by
    intro j hj
    have hjl : j < refRps.negative_pics_s0.length := hj
    rw [List.getD_eq_getElem _ _ hjl]
    exact List.getElem_mem hjl
  have hA : ∀ j ∈ (List.range refRps.num_positive_pics).reverse,
      s0FromS1Entry refRps deltaRps usedByCurrPic useDelta j
        = Except.ok (if (refRps.positive_pics_s1.getD j default).delta_poc_minus1 + 1 + deltaRps < 0 ∧
              useDelta.getD (refRps.num_negative_pics + j) false = true then
            some ⟨(refRps.positive_pics_s1.getD j default).delta_poc_minus1 + 1 + deltaRps - 1,
                  usedByCurrPic.getD (refRps.num_negative_pics + j) false⟩
          else none) := by
    intro j hj
    have hjlt : j < refRps.num_positive_pics := by
      simp only [List.mem_reverse, List.mem_range] at hj
      exact hj
    obtain ⟨h1, h2, h3⟩ := hS1 _ (hmemS1 j hjlt)
    unfold s0FromS1Entry
    dsimp only
    rw [if_pos h1, if_pos h2]
    by_cases hc : (refRps.positive_pics_s1.getD j default).delta_poc_minus1 + 1 + deltaRps < 0 ∧
        useDelta.getD (refRps.num_negative_pics + j) false = true
    · rw [if_pos hc, if_pos h3, if_pos hc]
    · rw [if_neg hc, if_neg hc]
  have hA0 : ∀ j ∈ List.range refRps.num_negative_pics,
      s0FromS0Entry refRps deltaRps usedByCurrPic useDelta j
        = Except.ok (if (refRps.negative_pics_s0.getD j default).delta_poc_minus1 + 1 + deltaRps < 0 ∧
              useDelta.getD j false = true then
            some ⟨(refRps.negative_pics_s0.getD j default).delta_poc_minus1 + 1 + deltaRps - 1,
                  usedByCurrPic.getD j false⟩
          else none) := by
    intro j hj
    have hjlt : j < refRps.num_negative_pics := List.mem_range.mp hj
    obtain ⟨h1, h2, h3⟩ := hS0 _ (hmemS0 j hjlt)
    unfold s0FromS0Entry
    dsimp only
    rw [if_pos h1, if_pos h2]
    by_cases hc : (refRps.negative_pics_s0.getD j default).delta_poc_minus1 + 1 + deltaRps < 0 ∧
        useDelta.getD j false = true
    · rw [if_pos hc, if_pos h3, if_pos hc]
    · rw [if_neg hc, if_neg hc]
  have hC : ∀ j ∈ (List.range refRps.num_negative_pics).reverse,
      s1FromS0Entry refRps deltaRps usedByCurrPic useDelta j
        = Except.ok (if (refRps.negative_pics_s0.getD j default).delta_poc_minus1 + 1 + deltaRps > 0 ∧
              useDelta.getD j false = true then
            some ⟨(refRps.negative_pics_s0.getD j default).delta_poc_minus1 + 1 + deltaRps - 1,
                  usedByCurrPic.getD j false⟩
          else none) := by
    intro j hj
    have hjlt : j < refRps.num_negative_pics := by
      simp only [List.mem_reverse, List.mem_range] at hj
      exact hj
    obtain ⟨h1, h2, h3⟩ := hS0 _ (hmemS0 j hjlt)
    unfold s1FromS0Entry
    dsimp only
    rw [if_pos h1, if_pos h2]
    by_cases hc : (refRps.negative_pics_s0.getD j default).delta_poc_minus1 + 1 + deltaRps > 0 ∧
        useDelta.getD j false = true
    · rw [if_pos hc, if_pos h3, if_pos hc]
    · rw [if_neg hc, if_neg hc]
  have hD : ∀ j ∈ List.range refRps.num_positive_pics,
      s1FromS1Entry refRps deltaRps usedByCurrPic useDelta j
        = Except.ok (if (refRps.positive_pics_s1.getD j default).delta_poc_minus1 + 1 + deltaRps > 0 ∧
              useDelta.getD (refRps.num_negative_pics + j) false = true then
            some ⟨(refRps.positive_pics_s1.getD j default).delta_poc_minus1 + 1 + deltaRps - 1,
                  usedByCurrPic.getD (refRps.num_negative_pics + j) false⟩
          else none) := by
    intro j hj
    have hjlt : j < refRps.num_positive_pics := List.mem_range.mp hj
    obtain ⟨h1, h2, h3⟩ := hS1 _ (hmemS1 j hjlt)
    unfold s1FromS1Entry
    dsimp only
    rw [if_pos h1, if_pos h2]
    by_cases hc : (refRps.positive_pics_s1.getD j default).delta_poc_minus1 + 1 + deltaRps > 0 ∧
        useDelta.getD (refRps.num_negative_pics + j) false = true
    · rw [if_pos hc, if_pos h3, if_pos hc]
    · rw [if_neg hc, if_neg hc]
  constructor
  · unfold ShortTermRefPicSet.deriveNegativePicsS0
    rw [scanPush_ok _ _ _ hA []]
    by_cases hb : deltaRps < 0 ∧ useDelta.getD refRps.num_delta_pocs false = true
    · simp only [if_pos hb, if_pos hB]
      rw [scanPush_ok _ _ _ hA0 _]
      simp only [if_pos hb, List.nil_append, List.append_assoc]
    · simp only [if_neg hb]
      rw [scanPush_ok _ _ _ hA0 _]
      simp only [if_neg hb, List.nil_append, List.append_nil]
  · unfold ShortTermRefPicSet.derivePositivePicsS1
    rw [scanPush_ok _ _ _ hC []]
    by_cases hb : deltaRps > 0 ∧ useDelta.getD refRps.num_delta_pocs false = true
    · simp only [if_pos hb, if_pos hB]
      rw [scanPush_ok _ _ _ hD _]
      simp only [if_pos hb, List.nil_append, List.append_assoc]
    · simp only [if_neg hb]
      rw [scanPush_ok _ _ _ hD _]
      simp only [if_neg hb, List.nil_append, List.append_nil]

/-- Claim C1 witness: a referenced set with one negative entry and
`delta_rps = -2` — the boundary term and the shifted S0 entry both land in
the new S0 list, in scan order, and the new S1 list is empty. -/
theorem c1_witness :
    ShortTermRefPicSet.deriveNegativePicsS0 ⟨[⟨0, true⟩], []⟩ (-2)
        [true, true] [true, true]
      = Except.ok [⟨-3, true⟩, ⟨-2, true⟩] ∧
    ShortTermRefPicSet.derivePositivePicsS1 ⟨[⟨0, true⟩], []⟩ (-2)
        [true, true] [true, true]
      = Except.ok [] := by
  have h := c1_rps_reconstruction ⟨[⟨0, true⟩], []⟩ (-2) [true, true] [true, true]
    (by decide) (by decide) (by decide)
  exact ⟨h.1.trans (by rfl), h.2.trans (by rfl)⟩

/-- The `(size_id, matrix_id)` pairs scanned by `read_scaling_list`, in scan
order: matrix ids step by 3 for size class 3 and by 1 otherwise. -/
def scalingListScanPairs : List (Nat × Nat) :=
  (List.range 4).flatMap fun s =>
    (stepRange 6 (if s == 3 then 3 else 1)).map fun m => (s, m)

/-- The scan the claim describes: all 4 size classes times all 6 matrix ids. -/
def claimFullScanPairs : List (Nat × Nat) :=
  (List.range 4).flatMap fun s => (List.range 6).map fun m => (s, m)

/-- Sequentially consume one scaling-list entry per `(size_id, matrix_id)`
pair. -/
def scanEntries : List (Nat × Nat) → BitList → Except PError BitList
  | [], bits => .ok bits
  | (s, _m) :: ps, bits =>
    match readScalingListEntry s bits with
    | .error e => .error e
    | .ok bits2 => scanEntries ps bits2

theorem scanEntries_append (l1 l2 : List (Nat × Nat)) (bits : BitList) :
    scanEntries (l1 ++ l2) bits
      = match scanEntries l1 bits with
        | .error e => .error e
        | .ok b => scanEntries l2 b := by
  induction l1 generalizing bits with
  | nil => simp [scanEntries]
  | cons p ps ih =>
    obtain ⟨s, m⟩ := p
    simp only [List.cons_append, scanEntries]
    cases readScalingListEntry s bits with
    | error e => rfl
    | ok bits2 => exact ih bits2

theorem readScalingMatrixLoop_eq_scanEntries (s : Nat) (ms : List Nat) (bits : BitList) :
    readScalingMatrixLoop s ms bits = scanEntries (ms.map fun m => (s, m)) bits := by
  induction ms generalizing bits with
  | nil => rfl
  | cons m ms ih =>
    simp only [List.map_cons, readScalingMatrixLoop, scanEntries]
    cases readScalingListEntry s bits with
    | error e => rfl
    | ok bits2 => exact ih bits2

theorem readScalingSizeLoop_eq_scanEntries (ss : List Nat) (bits : BitList) :
    readScalingSizeLoop ss bits
      = scanEntries (ss.flatMap fun s =>
          (stepRange 6 (if s == 3 then 3 else 1)).map fun m => (s, m)) bits := by
  induction ss generalizing bits with
  | nil => rfl
  | cons s ss ih =>
    rw [List.flatMap_cons, scanEntries_append]
    simp only [readScalingSizeLoop]
    rw [readScalingMatrixLoop_eq_scanEntries]
    cases scanEntries ((stepRange 6 (if s == 3 then 3 else 1)).map fun m => (s, m)) bits with
    | error e => rfl
    | ok bits2 => exact ih bits2

/-- A 40-bit pattern of twenty 2-bit scaling-list entries (prediction-mode
flag 0, matrix-id delta 0). -/
def scalingPatternBits : BitList := (List.replicate 20 [false, true]).join

/-- Claim C2 (counterexample): the claimed 4-size-classes-times-6-matrix-ids
scan (24 entries) does not match the code. On a 40-bit buffer holding
exactly twenty 2-bit entries the parser consumes everything and succeeds —
it scans only matrix ids 0 and 3 for size class 3 — while the claimed
24-entry scan runs out of bits. -/
theorem c2_counterexample :
    ScalingList.read_scaling_list scalingPatternBits = .ok (ScalingList.mk, []) ∧
    scanEntries claimFullScanPairs scalingPatternBits = .error outOfBits ∧
    scalingListScanPairs ≠ claimFullScanPairs := by
  refine ⟨by rfl, by rfl, by decide⟩

/-- Claim C2 (amended): with explicit scaling-list data present, the parser
performs the full scan over all 4 size classes, with all 6 matrix ids for
size classes 0-2 and matrix ids 0 and 3 for size class 3 — twenty
`(size_id, matrix_id)` entries in this exact order — consuming the bits of
each entry (prediction-mode flag, then either a matrix-id delta or the DC
coefficient and delta-coefficient run) even though the contents are
discarded. -/
theorem c2_scaling_list_scan (bits : BitList) :
    (ScalingList.read_scaling_list bits
      = match scanEntries scalingListScanPairs bits with
        | .error e => .error e
        | .ok b => .ok (ScalingList.mk, b)) ∧
    scalingListScanPairs =
      [(0, 0), (0, 1), (0, 2), (0, 3), (0, 4), (0, 5),
       (1, 0), (1, 1), (1, 2), (1, 3), (1, 4), (1, 5),
       (2, 0), (2, 1), (2, 2), (2, 3), (2, 4), (2, 5),
       (3, 0), (3, 3)] := by
  constructor
  · unfold ScalingList.read_scaling_list
    rw [readScalingSizeLoop_eq_scanEntries]
    rfl
  · decide

/-- The profile classification exactly as the specification documents it
(section 4.3): one branch per profile-idc 1 through 11, an exact
constraint-flag tuple table inside each branch, and the `Unknown` fallback
for any unmatched tuple or unrecognized profile-idc. Written from the
spec's words, for comparison with `LayerProfile.profile`. -/
def specProfileClassification (p : LayerProfile) : Profile :=
  if p.profile_idc = 1 then
    .Main
  else if p.profile_idc = 2 then
    if p.one_picture_only_constraint_flag then .Main10StillPicture else .Main10
  else if p.profile_idc = 3 then
    .MainStillPicture
  else if p.profile_idc = 4 then
    match p.max_12bit_constraint_flag, p.max_10bit_constraint_flag,
        p.max_8bit_constraint_flag, p.max_422chroma_constraint_flag,
        p.max_420chroma_constraint_flag, p.max_monochrome_constraint_flag,
        p.intra_constraint_flag, p.one_picture_only_constraint_flag,
        p.lower_bit_rate_constraint_flag with
    | true, true, true, true, true, true, false, false, true => .Monochrome
    | true, true, false, true, true, true, false, false, true => .Monochrome10
    | true, false, false, true, true, true, false, false, true => .Monochrome12
    | false, false, false, true, true, true, false, false, true => .Monochrome16
    | true, false, false, true, true, false, false, false, true => .Main12
    | true, true, false, true, false, false, false, false, true => .Main422_10
    | true, false, false, true, false, false, false, false, true => .Main422_12
    | true, true, true, false, false, false, false, false, true => .Main444
    | true, true, false, false, false, false, false, false, true => .Main444_10
    | true, false, false, false, false, false, false, false, true => .Main444_12
    | true, true, true, true, true, false, true, false, _ => .MainIntra
    | true, true, false, true, true, false, true, false, _ => .Main10Intra
    | true, false, false, true, true, false, true, false, _ => .Main12Intra
    | true, true, false, true, false, false, true, false, _ => .Main422_10Intra
    | true, false, false, true, false, false, true, false, _ => .Main422_12Intra
    | true, true, true, false, false, false, true, false, _ => .Main444Intra
    | true, true, false, false, false, false, true, false, _ => .Main444_10Intra
    | true, false, false, false, false, false, true, false, _ => .Main444_12Intra
    | false, false, false, false, false, false, true, false, _ => .Main444_16Intra
    | true, true, true, false, false, false, true, true, _ => .Main444StillPicture
    | false, false, false, false, false, false, true, true, _ => .Main444_16StillPicture
    | _, _, _, _, _, _, _, _, _ => .Unknown p.profile_idc
  else if p.profile_idc = 5 then
    match p.max_14bit_constraint_flag, p.max_12bit_constraint_flag,
        p.max_10bit_constraint_flag, p.max_8bit_constraint_flag,
        p.max_422chroma_constraint_flag, p.max_420chroma_constraint_flag,
        p.max_monochrome_constraint_flag, p.intra_constraint_flag,
        p.one_picture_only_constraint_flag, p.lower_bit_rate_constraint_flag with
    | true, true, true, true, false, false, false, false, false, true => .HighThroughput444
    | true, true, true, false, false, false, false, false, false, true => .HighThroughput444_10
    | true, false, false, false, false, false, false, false, false, true => .HighThroughput444_14
    | false, false, false, false, false, false, false, true, false, _ => .HighThroughput444_16Intra
    | _, _, _, _, _, _, _, _, _, _ => .Unknown p.profile_idc
  else if p.profile_idc = 6 then
    match p.max_12bit_constraint_flag, p.max_10bit_constraint_flag,
        p.max_8bit_constraint_flag, p.max_422chroma_constraint_flag,
        p.max_420chroma_constraint_flag, p.max_monochrome_constraint_flag,
        p.intra_constraint_flag, p.one_picture_only_constraint_flag,
        p.lower_bit_rate_constraint_flag with
    | true, true, true, true, true, false, false, false, true => .MultiviewMain
    | _, _, _, _, _, _, _, _, _ => .Unknown p.profile_idc
  else if p.profile_idc = 7 then
    match p.max_12bit_constraint_flag, p.max_10bit_constraint_flag,
        p.max_8bit_constraint_flag, p.max_422chroma_constraint_flag,
        p.max_420chroma_constraint_flag, p.max_monochrome_constraint_flag,
        p.intra_constraint_flag, p.one_picture_only_constraint_flag,
        p.lower_bit_rate_constraint_flag with
    | true, true, true, true, true, false, false, false, true => .ScalableMain
    | true, true, false, true, true, false, false, false, true => .ScalableMain10
    | _, _, _, _, _, _, _, _, _ => .Unknown p.profile_idc
  else if p.profile_idc = 8 then
    match p.max_12bit_constraint_flag, p.max_10bit_constraint_flag,
        p.max_8bit_constraint_flag, p.max_422chroma_constraint_flag,
        p.max_420chroma_constraint_flag, p.max_monochrome_constraint_flag,
        p.intra_constraint_flag, p.one_picture_only_constraint_flag,
        p.lower_bit_rate_constraint_flag with
    | true, true, true, true, true, false, false, false, true => .ThreeDeeMain
    | _, _, _, _, _, _, _, _, _ => .Unknown p.profile_idc
  else if p.profile_idc = 9 then
    match p.max_14bit_constraint_flag, p.max_12bit_constraint_flag,
        p.max_10bit_constraint_flag, p.max_8bit_constraint_flag,
        p.max_422chroma_constraint_flag, p.max_420chroma_constraint_flag,
        p.max_monochrome_constraint_flag, p.intra_constraint_flag,
        p.one_picture_only_constraint_flag, p.lower_bit_rate_constraint_flag with
    | true, true, true, true, true, true, false, false, false, true => .ScreenExtendedMain
    | true, true, true, false, true, true, false, false, false, true => .ScreenExtendedMain10
    | true, true, true, true, false, false, false, false, false, true => .ScreenExtendedMain444
    | true, true, true, false, false, false, false, false, false, true => .ScreenExtendedMain444_10
    | _, _, _, _, _, _, _, _, _, _ => .Unknown p.profile_idc
  else if p.profile_idc = 10 then
    match p.max_14bit_constraint_flag, p.max_12bit_constraint_flag,
        p.max_10bit_constraint_flag, p.max_8bit_constraint_flag,
        p.max_422chroma_constraint_flag, p.max_420chroma_constraint_flag,
        p.max_monochrome_constraint_flag, p.intra_constraint_flag,
        p.one_picture_only_constraint_flag, p.lower_bit_rate_constraint_flag with
    | true, true, true, true, true, true, true, false, false, true => .ScalableMonochrome
    | true, true, false, false, true, true, true, false, false, true => .ScalableMonochrome12
    | false, false, false, false, true, true, true, false, false, true => .ScalableMonochrome16
    | true, true, true, true, false, false, false, false, false, true => .ScalableMain444
    | _, _, _, _, _, _, _, _, _, _ => .Unknown p.profile_idc
  else if p.profile_idc = 11 then
    match p.max_14bit_constraint_flag, p.max_12bit_constraint_flag,
        p.max_10bit_constraint_flag, p.max_8bit_constraint_flag,
        p.max_422chroma_constraint_flag, p.max_420chroma_constraint_flag,
        p.max_monochrome_constraint_flag, p.intra_constraint_flag,
        p.one_picture_only_constraint_flag, p.lower_bit_rate_constraint_flag with
    | true, true, true, true, false, false, false, false, false, true => .ScreenExtendedHighThroughput444
    | true, true, true, false, false, false, false, false, false, true => .ScreenExtendedHighThroughput444_10
    | true, false, false, false, false, false, false, false, false, true => .ScreenExtendedHighThroughput444_14
    | _, _, _, _, _, _, _, _, _, _ => .Unknown p.profile_idc
  else
    .Unknown p.profile_idc

/-- Claim C4: the classification is total (it is a function into `Profile`);
with no compatibility flags set it agrees branch for branch with the
documented table — each profile-idc branch (1 through 11) maps the
documented constraint-flag tuples to their exact named variants, any
unmatched tuple yields `Unknown(profile_idc)`, and any profile-idc outside
the recognized set yields `Unknown(profile_idc)`. -/
theorem c4_profile_classification (p : LayerProfile)
    (hflags : p.profile_compatibility_flag = List.replicate 32 false) :
    p.profile = specProfileClassification p := by
  unfold LayerProfile.profile specProfileClassification LayerProfile.compat
  rw [hflags]
  simp only [getD_replicate_false, Bool.false_eq_true, or_false]

/-- Claim C4 witness: the all-default profile (idc 0, outside the recognized
set) classifies as `Unknown 0` through both the code and the table. -/
theorem c4_witness :
    (default : LayerProfile).profile = specProfileClassification default ∧
    specProfileClassification (default : LayerProfile) = Profile.Unknown 0 :=
  ⟨c4_profile_classification default rfl, by rfl⟩

theorem ptl_read_profile_present (k : Nat) (bits : BitList)
    (ptl : ProfileTierLevel) (rest : BitList)
    (h : ProfileTierLevel.read true k bits = .ok (ptl, rest)) :
    ptl.general_profile.isSome = true := by
  unfold ProfileTierLevel.read at h
  simp only [exceptBind_eq_ok] at h
  obtain ⟨⟨p, bp⟩, -, h⟩ := h
  simp only at h
  obtain ⟨⟨lvl, b2⟩, hlvl, h⟩ := h
  simp only [except_pure_eq, Except.ok.injEq, Prod.mk.injEq] at hlvl
  obtain ⟨hlv, -⟩ := hlvl
  simp only at h
  obtain ⟨⟨l8, b3⟩, -, h⟩ := h
  simp only at h
  obtain ⟨u, -, h⟩ := h
  obtain ⟨⟨pairs, b4⟩, -, h⟩ := h
  simp only at h
  split at h
  · simp only [exceptBind_eq_ok, except_pure_eq] at h
    obtain ⟨⟨al, b5⟩, -, h⟩ := h
    simp only at h
    obtain ⟨⟨subs, b6⟩, -, h⟩ := h
    simp only [Except.ok.injEq, Prod.mk.injEq] at h
    obtain ⟨hrec, -⟩ := h
    rw [← hrec]
    rw [← hlv]
    rfl
  · simp only [exceptBind_eq_ok, except_pure_eq] at h
    obtain ⟨⟨al, b5⟩, -, h⟩ := h
    simp only at h
    obtain ⟨⟨subs, b6⟩, -, h⟩ := h
    simp only [Except.ok.injEq, Prod.mk.injEq] at h
    obtain ⟨hrec, -⟩ := h
    rw [← hrec]
    rw [← hlv]
    rfl


/-- Claim C9: every `SeqParameterSet` successfully returned by `from_bits`
has its general profile populated — `from_bits` always calls
`ProfileTierLevel::read` with `profile_present_flag = true` — so the
accessors `general_layer_profile`, `general_tier` and `general_profile`
never hit the "SPS always has general profile" unwrap-panic (modelled here
as `none`). -/
theorem c9_general_profile_populated (bits : BitList) (sps : SeqParameterSet)
    (h : SeqParameterSet.from_bits bits = .ok sps) :
    sps.general_layer_profile.isSome = true ∧
    sps.general_tier.isSome = true ∧
    sps.general_profile.isSome = true := by
  have hgp : sps.general_layer_profile.isSome = true := by
    unfold SeqParameterSet.from_bits at h
    simp only [exceptBind_eq_ok] at h
    obtain ⟨⟨y1, c1⟩, -, h⟩ := h
    simp only at h
    obtain ⟨⟨y2, c2⟩, -, h⟩ := h
    simp only at h
    cases hv3 : ParamSetId.from_u32 15 y1 with
    | error e =>
      rw [hv3] at h
      simp only [except_throw_eq, except_bind_error] at h
      exact Except.noConfusion h
    | ok v =>
      rw [hv3] at h
      simp only [exceptBind_eq_ok, except_pure_eq] at h
      obtain ⟨v3b, -, h⟩ := h
      obtain ⟨⟨y4, c4⟩, -, h⟩ := h
      simp only at h
      obtain ⟨⟨ptl, c5⟩, h5, h⟩ := h
      simp only at h
      obtain ⟨⟨y6, c6⟩, -, h⟩ := h
      simp only at h
      cases hv7 : ParamSetId.from_u32 15 y6 with
      | error e =>
        rw [hv7] at h
        simp only [except_throw_eq, except_bind_error] at h
        exact Except.noConfusion h
      | ok v7 =>
        rw [hv7] at h
        simp only [exceptBind_eq_ok, except_pure_eq] at h
        obtain ⟨v7b, -, h⟩ := h
        obtain ⟨⟨y8, c8⟩, -, h⟩ := h
        simp only at h
        obtain ⟨⟨y9, c9⟩, -, h⟩ := h
        simp only at h
        obtain ⟨⟨y10, c10⟩, -, h⟩ := h
        simp only at h
        obtain ⟨⟨y11, c11⟩, -, h⟩ := h
        simp only at h
        obtain ⟨⟨y12, c12⟩, -, h⟩ := h
        simp only at h
        obtain ⟨⟨y13, c13⟩, -, h⟩ := h
        simp only at h
        obtain ⟨⟨y14, c14⟩, -, h⟩ := h
        simp only at h
        obtain ⟨⟨y15, c15⟩, -, h⟩ := h
        simp only at h
        obtain ⟨⟨y16, c16⟩, -, h⟩ := h
        simp only at h
        obtain ⟨⟨y17, c17⟩, -, h⟩ := h
        simp only at h
        obtain ⟨⟨y18, c18⟩, -, h⟩ := h
        simp only at h
        obtain ⟨⟨y19, c19⟩, -, h⟩ := h
        simp only at h
        obtain ⟨⟨y20, c20⟩, -, h⟩ := h
        simp only at h
        obtain ⟨⟨y21, c21⟩, -, h⟩ := h
        simp only at h
        obtain ⟨⟨y22, c22⟩, -, h⟩ := h
        simp only at h
        obtain ⟨⟨y23, c23⟩, -, h⟩ := h
        simp only at h
        obtain ⟨⟨y24, c24⟩, -, h⟩ := h
        simp only at h
        obtain ⟨⟨y25, c25⟩, -, h⟩ := h
        simp only at h
        obtain ⟨⟨y26, c26⟩, -, h⟩ := h
        simp only at h
        obtain ⟨⟨y27, c27⟩, -, h⟩ := h
        simp only at h
        obtain ⟨⟨y28, c28⟩, -, h⟩ := h
        simp only at h
        obtain ⟨⟨y29, c29⟩, -, h⟩ := h
        simp only at h
        obtain ⟨⟨y30, c30⟩, -, h⟩ := h
        simp only at h
        obtain ⟨⟨y31, c31⟩, -, h⟩ := h
        simp only at h
        obtain ⟨z32, -, h⟩ := h
        simp only [except_pure_eq, Except.ok.injEq] at h
        rw [← h]
        unfold SeqParameterSet.general_layer_profile
        exact ptl_read_profile_present y2 c4 ptl c5 h5
  obtain ⟨v, hv⟩ := Option.isSome_iff_exists.mp hgp
  refine ⟨hgp, ?_, ?_⟩
  · simp [SeqParameterSet.general_tier, hv]
  · simp [SeqParameterSet.general_profile, hv]

/-- Claim C9 witness: the repository's real 720x576 SPS payload parses and
its general layer profile is populated. -/
theorem c9_witness : spsExample.general_layer_profile.isSome = true :=
  (c9_general_profile_populated spsExampleBits spsExample rfl).1
